import Mathlib

/-!
# Reflected-XSS output detection (`agent/php7/openrasp_output_detect.cc`)

A shallow embedding of the output handler of the OpenRASP PHP 7 agent and the
properties of its detection algorithm.

Conventions of the embedding.

* A `char *` is the list of the characters before its terminating NUL.
* A `zend_string` keeps its two fields apart: `len` is what `Z_STRLEN_P` reads,
  `val` is what a `char *` consumer of `Z_STRVAL_P` sees.
* Code that calls out of this file (the risk handler, `set_location_header`)
  is recorded as a list of effects, in call order, next to the returned status.
* Values the file reads from elsewhere (configuration, the regex engine, the
  policy action, the header list, the GET store) are arguments.
* The functions are given twice: as functions of their inputs, and, statement
  by statement, as transformers of the storage of their variables, to follow
  what one run leaves to the next.
-/

namespace OpenRASP

/-! ## C library -/

/-- The C string, as a list of characters. -/
abbrev CString := List Char

/-- `strlen`. -/
def strlen (s : CString) : Nat := s.length

/-- `strncmp(s1, s2, n)`: the difference of the first two differing characters
among the first `n`, and `0` when there are none. -/
def strncmp : CString → CString → Nat → Int
  | _, _, 0 => 0
  | [], [], _ + 1 => 0
  | [], b :: _, _ + 1 => -(b.toNat : Int)
  | a :: _, [], _ + 1 => (a.toNat : Int)
  | a :: s1, b :: s2, n + 1 =>
    if a = b then strncmp s1 s2 n else (a.toNat : Int) - (b.toNat : Int)

/-- `strstr(haystack, needle)`: the rest of `haystack` from the first
occurrence of `needle` on, `none` for `NULL`. -/
def strstr : CString → CString → Option CString
  | [], needle => if needle.isPrefixOf [] then some [] else none
  | c :: haystack, needle =>
    if needle.isPrefixOf (c :: haystack) then some (c :: haystack)
    else strstr haystack needle

/-! ## Zend engine and SAPI data -/

/-- `SUCCESS` of `zend_types.h`. -/
def SUCCESS : Int := 0

/-- `FAILURE` of `zend_types.h`. -/
def FAILURE : Int := -1

/-- The `zend_string`: its stored length and its character data as a C string. -/
structure zend_string where
  len : Nat
  val : CString
deriving DecidableEq, Repr

/-- The `zval`, by type tag, with the payload of the types that reach this code. -/
inductive zval where
  | IS_NULL
  | IS_LONG (lval : Int)
  | IS_STRING (str : zend_string)
  | IS_ARRAY (arr : List (CString × zval))

/-- The ordered hash table: its live buckets, in insertion order. -/
abbrev HashTable := List (CString × zval)

/-- `ZVAL_STRING(z, s)` and `add_assoc_string`: a fresh string copied from a C string. -/
def ZVAL_STRING (s : CString) : zval := zval.IS_STRING ⟨strlen s, s⟩

/-- `Z_STRVAL_P` (defined on strings only). -/
def Z_STRVAL_P : zval → CString
  | zval.IS_STRING str => str.val
  | _ => []

/-- `zend_string_init(str, len)`: the string PHP makes of a byte sequence, which
may hold NUL bytes. `Z_STRLEN_P` is the number of bytes; a `char *` reader of
`Z_STRVAL_P` sees the bytes before the first NUL. -/
def zend_string_init (bytes : List Char) : zend_string :=
  ⟨bytes.length, bytes.takeWhile (fun c => c ≠ Char.ofNat 0)⟩

/-- The `sapi_header_struct`: one response header line. -/
structure sapi_header_struct where
  header : CString
deriving DecidableEq, Repr

/-- `PHP_OUTPUT_HANDLER_START` of `php_output.h`. -/
def PHP_OUTPUT_HANDLER_START : Nat := 0x01

/-- `PHP_OUTPUT_HANDLER_FINAL` of `php_output.h`. -/
def PHP_OUTPUT_HANDLER_FINAL : Nat := 0x08

/-- The fields of `php_output_context` the handler reads: `op` and `in.data`. -/
structure php_output_context where
  op : Nat
  in_data : CString
deriving DecidableEq, Repr

/-! ## OpenRASP collaborators -/

/-- The enumeration of policy actions; the handler only passes its value on. -/
abbrev OpenRASPActionType := Nat

/-- The check type handed to the risk handler. -/
inductive OpenRASPCheckType where
  | XSS
deriving DecidableEq, Repr

/-- What `OPENRASP_CONFIG(xss.*)` reads. `min_param_length` is compared with the
unsigned `Z_STRLEN_P` and is a natural number; `max_detection_num` is compared
with the signed `count` and is an integer. -/
structure xss_config where
  min_param_length : Nat
  max_detection_num : Int
  filter_regex : CString

/-- The calls the handler makes out of the file. -/
inductive effect where
  | openrasp_buildin_php_risk_handle (action : OpenRASPActionType)
      (type : OpenRASPCheckType) (confidence : Int) (attack_params : HashTable)
      (plugin_message : zval)
  | set_location_header

/-- What the request supplies: the regex engine `openrasp::regex_match`, the
configuration, the action of `get_buildin_check_action(XSS)`, the header list
`SG(sapi_headers).headers`, and the GET store `PG(http_globals)[TRACK_VARS_GET]`
(`none` when it is no array and `_GET` is no auto global). -/
structure request where
  regex_match : CString → CString → Bool
  config : xss_config
  action : OpenRASPActionType
  headers : List sapi_header_struct
  GET : Option HashTable

/-! ## The functions of `openrasp_output_detect.cc` -/

/-- The literal `suffix` of `_check_header_content_type_if_html`. -/
def suffix : CString := "Content-type".toList

/-- The callback applied to every header: `data` is the header, the Boolean is `*arg`. -/
def _check_header_content_type_if_html (data : sapi_header_struct) (is_html : Bool) : Bool :=
  if is_html then
    let header := data.header
    let header_len := strlen header
    let suffix_len := strlen suffix
    if header_len > suffix_len ∧
        strncmp suffix header suffix_len = 0 ∧
        strstr header "text/html".toList = none then
      false
    else is_html
  else is_html

/-- `zend_llist_apply_with_argument`: the callback on every element, head first. -/
def zend_llist_apply_with_argument {α β : Type} (l : List α) (func : α → β → β) (arg : β) : β :=
  l.foldl (fun acc data => func data acc) arg

/-- `_is_content_type_html`. -/
def _is_content_type_html (headers : List sapi_header_struct) : Bool :=
  zend_llist_apply_with_argument headers _check_header_content_type_if_html true

/-- `_gpc_parameter_filter`. -/
def _gpc_parameter_filter (regex_match : CString → CString → Bool) (config : xss_config)
    (param : zval) : Bool :=
  match param with
  | zval.IS_STRING str =>
    if str.len > config.min_param_length then
      if regex_match str.val config.filter_regex then true else false
    else false
  | _ => false

/-- The message of the excessive-count report. -/
def excessive_message : zval := ZVAL_STRING "Excessively suspected xss parameters".toList

/-- The message of the reflected-parameter report (`strpprintf` with one `%s`). -/
def reflected_message (val : CString) : zval :=
  ZVAL_STRING ("Reflected XSS attack detected: using get parameter: '".toList ++ val ++ "'".toList)

/-- The `ZEND_HASH_FOREACH_VAL` loop of `_detect_param_occur_in_html_output`,
from a bucket on, with the running `count`. The loop binds the values only, never
the keys. `count` grows by one per filter-passing bucket and stays below the
number of buckets, far from the range of `int`, so it is an unbounded integer. -/
def foreach_val (regex_match : CString → CString → Bool) (config : xss_config)
    (action : OpenRASPActionType) (param : CString) : HashTable → Int → Int × List effect
  | [], _ => (FAILURE, [])
  | (_, val) :: rest, count =>
    if _gpc_parameter_filter regex_match config val then
      if count + 1 > config.max_detection_num then
        (SUCCESS, [effect.openrasp_buildin_php_risk_handle action OpenRASPCheckType.XSS 100
          [("count".toList, zval.IS_LONG (count + 1))] excessive_message])
      else if (strstr param (Z_STRVAL_P val)).isSome then
        (SUCCESS, [effect.openrasp_buildin_php_risk_handle action OpenRASPCheckType.XSS 100
          [("parameter".toList, ZVAL_STRING (Z_STRVAL_P val))]
          (reflected_message (Z_STRVAL_P val))])
      else foreach_val regex_match config action param rest (count + 1)
    else foreach_val regex_match config action param rest count

/-- `_detect_param_occur_in_html_output`: `FAILURE` when there is no GET array,
else the loop over it from `count = 0`; `param` is the response body. -/
def _detect_param_occur_in_html_output (r : request) (param : CString) : Int × List effect :=
  match r.GET with
  | none => (FAILURE, [])
  | some global => foreach_val r.regex_match r.config r.action param global 0

/-- `openrasp_output_handler`: the returned status and the calls made. -/
def openrasp_output_handler (r : request) (output_context : php_output_context) :
    Int × List effect :=
  if _is_content_type_html r.headers ∧
      output_context.op &&& PHP_OUTPUT_HANDLER_START ≠ 0 ∧
      output_context.op &&& PHP_OUTPUT_HANDLER_FINAL ≠ 0 then
    let (status, effects) := _detect_param_occur_in_html_output r output_context.in_data
    if status = SUCCESS then (status, effects ++ [effect.set_location_header])
    else (status, effects)
  else (FAILURE, [])

/-- The type of an internal output handler function, such as
`openrasp_output_handler`. -/
abbrev php_output_handler_context_func_t :=
  request → php_output_context → Int × List effect

/-- One call of `php_output_handler_create_internal`, with its arguments. -/
structure create_internal_call where
  name : CString
  name_len : Nat
  output_handler : php_output_handler_context_func_t
  chunk_size : Nat
  flags : Int

/-- `openrasp_output_handler_init`: the returned pointer (`none` for `nullptr`)
and the calls made of `php_output_handler_create_internal`, the function of PHP
that builds the handler, given as the first argument. -/
def openrasp_output_handler_init {php_output_handler : Type}
    (php_output_handler_create_internal :
      CString → Nat → php_output_handler_context_func_t → Nat → Int → Option php_output_handler)
    (handler_name : CString) (handler_name_len : Nat) (chunk_size : Nat) (flags : Int) :
    Option php_output_handler × List create_internal_call :=
  if chunk_size ≠ 0 then (none, [])
  else
    (php_output_handler_create_internal handler_name handler_name_len openrasp_output_handler
        chunk_size flags,
      [⟨handler_name, handler_name_len, openrasp_output_handler, chunk_size, flags⟩])

/-! ## The same functions over their variables

The functions above, statement by statement, as transformers of the storage of
the variables they declare. A run starts from whatever an earlier run left in
that storage. -/

/-- The storage of the variables of the file: the `static` pointer `suffix` of
the header callback, which outlives every call and starts as `"Content-type"`,
and the automatic variables that are written more than once: `status` of
`openrasp_output_handler`, `is_html` of `_is_content_type_html`, and `status`
and `count` of `_detect_param_occur_in_html_output`. -/
structure storage where
  suffix : CString
  status : Int
  is_html : Bool
  detect_status : Int
  count : Int

/-- The body of `_check_header_content_type_if_html`, with `arg` pointing to
`is_html`. -/
def run_check_header_content_type_if_html (data : sapi_header_struct) (σ : storage) :
    storage :=
  if σ.is_html then
    let header := data.header
    let header_len := strlen header
    let suffix_len := strlen σ.suffix
    if header_len > suffix_len ∧
        strncmp σ.suffix header suffix_len = 0 ∧
        strstr header "text/html".toList = none then
      { σ with is_html := false }
    else σ
  else σ

/-- The body of `_is_content_type_html`: `bool is_html = true;`, the callback on
every header, `return is_html;`. -/
def run_is_content_type_html (headers : List sapi_header_struct) (σ : storage) :
    Bool × storage :=
  let σ1 := { σ with is_html := true }
  let σ2 := zend_llist_apply_with_argument headers run_check_header_content_type_if_html σ1
  (σ2.is_html, σ2)

/-- The loop of `_detect_param_occur_in_html_output` over the buckets, with
`++count` on the stored `count` and `return status;` after the last bucket. -/
def run_foreach_val (regex_match : CString → CString → Bool) (config : xss_config)
    (action : OpenRASPActionType) (param : CString) :
    HashTable → storage → (Int × List effect) × storage
  | [], σ => ((σ.detect_status, []), σ)
  | (_, val) :: rest, σ =>
    if _gpc_parameter_filter regex_match config val then
      let σ1 := { σ with count := σ.count + 1 }
      if σ1.count > config.max_detection_num then
        ((SUCCESS, [effect.openrasp_buildin_php_risk_handle action OpenRASPCheckType.XSS 100
          [("count".toList, zval.IS_LONG σ1.count)] excessive_message]), σ1)
      else if (strstr param (Z_STRVAL_P val)).isSome then
        ((SUCCESS, [effect.openrasp_buildin_php_risk_handle action OpenRASPCheckType.XSS 100
          [("parameter".toList, ZVAL_STRING (Z_STRVAL_P val))]
          (reflected_message (Z_STRVAL_P val))]), σ1)
      else run_foreach_val regex_match config action param rest σ1
    else run_foreach_val regex_match config action param rest σ

/-- The body of `_detect_param_occur_in_html_output`: `int status = FAILURE;`,
the early return, `int count = 0;`, the loop. -/
def run_detect_param_occur_in_html_output (r : request) (param : CString) (σ : storage) :
    (Int × List effect) × storage :=
  let σ1 := { σ with detect_status := FAILURE }
  match r.GET with
  | none => ((FAILURE, []), σ1)
  | some global =>
    let σ2 := { σ1 with count := 0 }
    run_foreach_val r.regex_match r.config r.action param global σ2

/-- The body of `openrasp_output_handler`: `int status = FAILURE;`, the guard,
the assignment of the scan's result to `status`, `set_location_header`,
`return status;`. -/
def run_openrasp_output_handler (r : request) (output_context : php_output_context)
    (σ : storage) : (Int × List effect) × storage :=
  let σ1 := { σ with status := FAILURE }
  let (is_html, σ2) := run_is_content_type_html r.headers σ1
  if is_html ∧
      output_context.op &&& PHP_OUTPUT_HANDLER_START ≠ 0 ∧
      output_context.op &&& PHP_OUTPUT_HANDLER_FINAL ≠ 0 then
    let (result, σ3) := run_detect_param_occur_in_html_output r output_context.in_data σ2
    let σ4 := { σ3 with status := result.1 }
    if σ4.status = SUCCESS then ((σ4.status, result.2 ++ [effect.set_location_header]), σ4)
    else ((σ4.status, result.2), σ4)
  else ((σ2.status, []), σ2)

/-- A regex engine for the examples: a subject matches when it contains `<`. -/
def regex_contains_lt (subject _regex : CString) : Bool := subject.contains '<'

/-- The request of the examples: the engine `regex_contains_lt`, the given
thresholds, and string-valued GET parameters `(name, value)`. -/
def example_request (min_param_length : Nat) (max_detection_num : Int)
    (headers : List CString) (GET : List (CString × CString)) : request where
  regex_match := regex_contains_lt
  config := ⟨min_param_length, max_detection_num, "<".toList⟩
  action := 0
  headers := headers.map sapi_header_struct.mk
  GET := some (GET.map (fun p => (p.1, ZVAL_STRING p.2)))

/-- The output event that is both the first and the last of the response. -/
def complete_output (body : CString) : php_output_context :=
  ⟨PHP_OUTPUT_HANDLER_START ||| PHP_OUTPUT_HANDLER_FINAL, body⟩

/-! ## Vocabulary of the properties -/

/-- The header lines on which the callback clears `*is_html`. -/
def clears_is_html (h : sapi_header_struct) : Prop :=
  suffix.length < h.header.length ∧ suffix <+: h.header ∧ ¬ "text/html".toList <:+: h.header

instance (h : sapi_header_struct) : Decidable (clears_is_html h) := by
  unfold clears_is_html
  infer_instance

/-- The report the loop sends for a reflected value. -/
def reflected_report (action : OpenRASPActionType) (val : CString) : effect :=
  effect.openrasp_buildin_php_risk_handle action OpenRASPCheckType.XSS 100
    [("parameter".toList, ZVAL_STRING val)] (reflected_message val)

/-- The report the loop sends when the count passes the cap. -/
def excessive_report (action : OpenRASPActionType) (count : Int) : effect :=
  effect.openrasp_buildin_php_risk_handle action OpenRASPCheckType.XSS 100
    [("count".toList, zval.IS_LONG count)] excessive_message

/-- The buckets of a table whose value passes `_gpc_parameter_filter`, in order. -/
def filtered (regex_match : CString → CString → Bool) (config : xss_config)
    (ht : HashTable) : HashTable :=
  ht.filter (fun q => _gpc_parameter_filter regex_match config q.2)

/-- `Z_TYPE_P(z) == IS_STRING`. -/
def is_string : zval → Bool
  | zval.IS_STRING _ => true
  | _ => false

/-- The table without the buckets whose value is no string. -/
def string_entries (ht : HashTable) : HashTable :=
  ht.filter (fun q => is_string q.2)

/-- The calls of the risk handler among the effects. -/
def is_risk_handle : effect → Bool
  | effect.openrasp_buildin_php_risk_handle _ _ _ _ _ => true
  | effect.set_location_header => false

/-- The calls of `set_location_header` among the effects. -/
def is_set_location_header : effect → Bool
  | effect.openrasp_buildin_php_risk_handle _ _ _ _ _ => false
  | effect.set_location_header => true

/-- The request with another `xss.max_detection_num`. -/
def with_max_detection_num (r : request) (m : Int) : request :=
  { r with config := { r.config with max_detection_num := m } }

/-- A handler creation for the examples: it returns the name and the chunk size. -/
def example_create_internal (name : CString) (_name_len : Nat)
    (_output_handler : php_output_handler_context_func_t) (chunk_size : Nat) (_flags : Int) :
    Option (CString × Nat) :=
  some (name, chunk_size)

/-! ## Lemmas on the C library functions and the header callback -/

theorem strstr_isSome_iff (haystack needle : CString) :
    (strstr haystack needle).isSome ↔ needle <:+: haystack := by
  induction haystack with
  | nil =>
    cases needle <;> simp [strstr]
  | cons c haystack ih =>
    unfold strstr
    by_cases h : needle.isPrefixOf (c :: haystack) = true
    · rw [if_pos h]
      have hp : needle <+: c :: haystack := List.isPrefixOf_iff_prefix.mp h
      simpa using hp.isInfix
    · rw [if_neg h, ih, List.infix_cons_iff]
      have hp : ¬ needle <+: c :: haystack := fun hp => h (List.isPrefixOf_iff_prefix.mpr hp)
      simp [hp]

theorem strstr_eq_none_iff (haystack needle : CString) :
    strstr haystack needle = none ↔ ¬ needle <:+: haystack := by
  rw [← strstr_isSome_iff]
  cases strstr haystack needle <;> simp

theorem strncmp_eq_zero_iff (s1 s2 : CString) (h : s1.length ≤ s2.length) :
    strncmp s1 s2 s1.length = 0 ↔ s1 <+: s2 := by
  induction s1 generalizing s2 with
  | nil => simp [strncmp]
  | cons a s1 ih =>
    cases s2 with
    | nil => simp at h
    | cons b s2 =>
      simp only [List.length_cons, strncmp]
      by_cases hab : a = b
      · subst hab
        simp only [if_true]
        rw [ih s2 (by simpa using h)]
        simp [List.cons_prefix_cons]
      · rw [if_neg hab]
        have hn : a.toNat ≠ b.toNat := fun hh => hab (by rw [← Char.ofNat_toNat a, ← Char.ofNat_toNat b, hh])
        constructor
        · intro h0; omega
        · intro hp
          rw [List.cons_prefix_cons] at hp
          exact absurd hp.1 hab


theorem infix_of_infix_append_cons (needle a b : CString) (c : Char) (hc : c ∉ needle)
    (h : needle <:+: a ++ c :: b) : needle <:+: a ∨ needle <:+: b := by
  obtain ⟨s, t, hst⟩ := h
  rcases List.append_eq_append_iff.mp hst with ⟨a', ha, _⟩ | ⟨c', hc', hcb⟩
  · left
    exact ⟨s, a', ha.symm⟩
  · cases c' with
    | nil =>
      left
      exact ⟨s, [], by simpa using hc'⟩
    | cons x c'' =>
      simp only [List.cons_append, List.cons.injEq] at hcb
      obtain ⟨hx, hb⟩ := hcb
      subst hx
      rcases List.append_eq_append_iff.mp hc' with ⟨a', _, hn⟩ | ⟨d, _, hd⟩
      · exact absurd (by rw [hn]; simp) hc
      · cases d with
        | nil => exact absurd (by simp at hd; rw [← hd]; simp) hc
        | cons y d' =>
          simp only [List.cons_append, List.cons.injEq] at hd
          right
          exact ⟨d', t, by rw [hb, hd.2]⟩

theorem check_header_true (h : sapi_header_struct) :
    _check_header_content_type_if_html h true = false ↔ clears_is_html h := by
  unfold _check_header_content_type_if_html clears_is_html strlen
  by_cases hlen : suffix.length < h.header.length
  · have e1 := strncmp_eq_zero_iff suffix h.header (Nat.le_of_lt hlen)
    have e2 := strstr_eq_none_iff h.header "text/html".toList
    simp only [if_true, gt_iff_lt, e1, e2]
    split <;> simp_all
  · simp only [if_true, gt_iff_lt]
    split <;> simp_all

theorem check_header_false (h : sapi_header_struct) :
    _check_header_content_type_if_html h false = false := by
  simp [_check_header_content_type_if_html]

theorem apply_check_false (hs : List sapi_header_struct) :
    zend_llist_apply_with_argument hs _check_header_content_type_if_html false = false := by
  induction hs with
  | nil => rfl
  | cons h hs ih =>
    simpa [zend_llist_apply_with_argument, check_header_false] using ih

theorem is_content_type_html_eq_false_iff (hs : List sapi_header_struct) :
    _is_content_type_html hs = false ↔ ∃ h ∈ hs, clears_is_html h := by
  unfold _is_content_type_html
  induction hs with
  | nil => simp [zend_llist_apply_with_argument]
  | cons h hs ih =>
    have step : zend_llist_apply_with_argument (h :: hs) _check_header_content_type_if_html true
        = zend_llist_apply_with_argument hs _check_header_content_type_if_html
            (_check_header_content_type_if_html h true) := rfl
    rw [step]
    by_cases hh : clears_is_html h
    · rw [(check_header_true h).mpr hh, apply_check_false]
      simp only [true_iff]
      exact ⟨h, List.mem_cons_self _ _, hh⟩
    · have ht : _check_header_content_type_if_html h true = true := by
        cases hv : _check_header_content_type_if_html h true
        · exact absurd ((check_header_true h).mp hv) hh
        · rfl
      rw [ht, ih]
      constructor
      · rintro ⟨x, hx, hc⟩
        exact ⟨x, List.mem_cons_of_mem _ hx, hc⟩
      · rintro ⟨x, hx, hc⟩
        rcases List.mem_cons.mp hx with rfl | hx
        · exact absurd hc hh
        · exact ⟨x, hx, hc⟩


section scan
variable (rm : CString → CString → Bool) (cfg : xss_config) (act : OpenRASPActionType)
  (param : CString)

theorem filtered_cons_pos (q : CString × zval) (l : HashTable)
    (h : _gpc_parameter_filter rm cfg q.2 = true) :
    filtered rm cfg (q :: l) = q :: filtered rm cfg l := by
  simp [filtered, h]

theorem filtered_cons_neg (q : CString × zval) (l : HashTable)
    (h : ¬ _gpc_parameter_filter rm cfg q.2 = true) :
    filtered rm cfg (q :: l) = filtered rm cfg l := by
  simp [filtered, h]

theorem foreach_val_cons_fail (k : CString) (v : zval) (l : HashTable) (count : Int)
    (hq : ¬ _gpc_parameter_filter rm cfg v = true) :
    foreach_val rm cfg act param ((k, v) :: l) count = foreach_val rm cfg act param l count := by
  simp [foreach_val, hq]

theorem foreach_val_cons_excess (k : CString) (v : zval) (l : HashTable) (count : Int)
    (hq : _gpc_parameter_filter rm cfg v = true) (hgt : count + 1 > cfg.max_detection_num) :
    foreach_val rm cfg act param ((k, v) :: l) count =
      (SUCCESS, [excessive_report act (count + 1)]) := by
  simp [foreach_val, hq, hgt, excessive_report]

theorem foreach_val_cons_reflect (k : CString) (v : zval) (l : HashTable) (count : Int)
    (hq : _gpc_parameter_filter rm cfg v = true) (hle : ¬ count + 1 > cfg.max_detection_num)
    (hs : (strstr param (Z_STRVAL_P v)).isSome = true) :
    foreach_val rm cfg act param ((k, v) :: l) count =
      (SUCCESS, [reflected_report act (Z_STRVAL_P v)]) := by
  simp [foreach_val, hq, hle, hs, reflected_report]

theorem foreach_val_cons_next (k : CString) (v : zval) (l : HashTable) (count : Int)
    (hq : _gpc_parameter_filter rm cfg v = true) (hle : ¬ count + 1 > cfg.max_detection_num)
    (hs : strstr param (Z_STRVAL_P v) = none) :
    foreach_val rm cfg act param ((k, v) :: l) count =
      foreach_val rm cfg act param l (count + 1) := by
  simp [foreach_val, hq, hle, hs]

theorem foreach_val_none_pass (l : HashTable) (count : Int)
    (h : ∀ q ∈ l, _gpc_parameter_filter rm cfg q.2 = false) :
    foreach_val rm cfg act param l count = (FAILURE, []) := by
  induction l with
  | nil => rfl
  | cons q l ih =>
    obtain ⟨k, v⟩ := q
    have hq : _gpc_parameter_filter rm cfg v = false := h (k, v) (List.mem_cons_self _ _)
    rw [foreach_val_cons_fail rm cfg act param k v l count (by simp [hq])]
    exact ih (fun x hx => h x (List.mem_cons_of_mem _ hx))

theorem foreach_val_skip (pre rest : HashTable) (count : Int)
    (hpre : ∀ q ∈ pre, _gpc_parameter_filter rm cfg q.2 = true →
      strstr param (Z_STRVAL_P q.2) = none)
    (hcap : count + ((filtered rm cfg pre).length : Int) ≤ cfg.max_detection_num) :
    foreach_val rm cfg act param (pre ++ rest) count =
      foreach_val rm cfg act param rest (count + ((filtered rm cfg pre).length : Int)) := by
  induction pre generalizing count with
  | nil => simp [filtered]
  | cons q pre ih =>
    obtain ⟨k, v⟩ := q
    by_cases hq : _gpc_parameter_filter rm cfg v = true
    · rw [filtered_cons_pos rm cfg (k, v) pre hq] at hcap ⊢
      simp only [List.length_cons, Nat.cast_add, Nat.cast_one] at hcap ⊢
      have hs : strstr param (Z_STRVAL_P v) = none := hpre (k, v) (List.mem_cons_self _ _) hq
      have hle : ¬ count + 1 > cfg.max_detection_num := by
        have : (0 : Int) ≤ ((filtered rm cfg pre).length : Int) := Int.natCast_nonneg _
        omega
      rw [List.cons_append, foreach_val_cons_next rm cfg act param k v _ count hq hle hs,
        ih (count + 1) (fun x hx => hpre x (List.mem_cons_of_mem _ hx)) (by omega)]
      congr 1
      omega
    · rw [filtered_cons_neg rm cfg (k, v) pre hq] at hcap ⊢
      rw [List.cons_append, foreach_val_cons_fail rm cfg act param k v _ count hq]
      exact ih count (fun x hx => hpre x (List.mem_cons_of_mem _ hx)) hcap

theorem foreach_val_cases (l : HashTable) (count : Int) :
    (foreach_val rm cfg act param l count = (FAILURE, []) ∧
      (∀ q ∈ l, _gpc_parameter_filter rm cfg q.2 = true → strstr param (Z_STRVAL_P q.2) = none) ∧
      (filtered rm cfg l = [] ∨
        count + ((filtered rm cfg l).length : Int) ≤ cfg.max_detection_num)) ∨
    (∃ pre p post, l = pre ++ p :: post ∧
      (∀ q ∈ pre, _gpc_parameter_filter rm cfg q.2 = true →
        strstr param (Z_STRVAL_P q.2) = none) ∧
      _gpc_parameter_filter rm cfg p.2 = true ∧
      ((count + ((filtered rm cfg pre).length : Int) + 1 ≤ cfg.max_detection_num ∧
          (strstr param (Z_STRVAL_P p.2)).isSome = true ∧
          foreach_val rm cfg act param l count =
            (SUCCESS, [reflected_report act (Z_STRVAL_P p.2)])) ∨
        (cfg.max_detection_num < count + ((filtered rm cfg pre).length : Int) + 1 ∧
          foreach_val rm cfg act param l count =
            (SUCCESS, [excessive_report act (count + ((filtered rm cfg pre).length : Int) + 1)])))) := by
  induction l generalizing count with
  | nil =>
    left
    exact ⟨rfl, by simp, Or.inl rfl⟩
  | cons q l ih =>
    obtain ⟨k, v⟩ := q
    by_cases hq : _gpc_parameter_filter rm cfg v = true
    · by_cases hgt : count + 1 > cfg.max_detection_num
      · right
        refine ⟨[], (k, v), l, rfl, by simp, hq, Or.inr ⟨?_, ?_⟩⟩
        · simpa [filtered] using hgt
        · rw [foreach_val_cons_excess rm cfg act param k v l count hq hgt]
          simp [filtered]
      · by_cases hs : (strstr param (Z_STRVAL_P v)).isSome = true
        · right
          refine ⟨[], (k, v), l, rfl, by simp, hq, Or.inl ⟨?_, hs, ?_⟩⟩
          · simp only [filtered, List.filter_nil, List.length_nil, Nat.cast_zero]
            omega
          · exact foreach_val_cons_reflect rm cfg act param k v l count hq hgt hs
        · have hnone : strstr param (Z_STRVAL_P v) = none := by
            cases hv : strstr param (Z_STRVAL_P v)
            · rfl
            · rw [hv] at hs; simp at hs
          have hstep := foreach_val_cons_next rm cfg act param k v l count hq hgt hnone
          rcases ih (count + 1) with ⟨hf, hall, hcap⟩ | ⟨pre, p, post, hl, hpre, hp, hres⟩
          · left
            refine ⟨by rw [hstep, hf], ?_, Or.inr ?_⟩
            · intro x hx hxf
              rcases List.mem_cons.mp hx with rfl | hx
              · exact hnone
              · exact hall x hx hxf
            · rw [filtered_cons_pos rm cfg (k, v) l hq]
              simp only [List.length_cons, Nat.cast_add, Nat.cast_one]
              rcases hcap with h0 | hle
              · rw [h0]; simp only [List.length_nil, Nat.cast_zero]; omega
              · omega
          · right
            refine ⟨(k, v) :: pre, p, post, by rw [hl]; rfl, ?_, hp, ?_⟩
            · intro x hx hxf
              rcases List.mem_cons.mp hx with rfl | hx
              · exact hnone
              · exact hpre x hx hxf
            · rw [filtered_cons_pos rm cfg (k, v) pre hq, hstep]
              simp only [List.length_cons, Nat.cast_add, Nat.cast_one]
              have e : count + ((filtered rm cfg pre).length + 1 : Int) + 1 =
                  count + 1 + ((filtered rm cfg pre).length : Int) + 1 := by omega
              rw [e]
              exact hres
    · have hstep := foreach_val_cons_fail rm cfg act param k v l count hq
      rcases ih count with ⟨hf, hall, hcap⟩ | ⟨pre, p, post, hl, hpre, hp, hres⟩
      · left
        refine ⟨by rw [hstep, hf], ?_, ?_⟩
        · intro x hx hxf
          rcases List.mem_cons.mp hx with rfl | hx
          · exact absurd hxf hq
          · exact hall x hx hxf
        · rw [filtered_cons_neg rm cfg (k, v) l hq]
          exact hcap
      · right
        refine ⟨(k, v) :: pre, p, post, by rw [hl]; rfl, ?_, hp, ?_⟩
        · intro x hx hxf
          rcases List.mem_cons.mp hx with rfl | hx
          · exact absurd hxf hq
          · exact hpre x hx hxf
        · rw [filtered_cons_neg rm cfg (k, v) pre hq, hstep]
          exact hres

theorem foreach_val_first_reflected (pre post : HashTable) (p : CString × zval) (count : Int)
    (hp : _gpc_parameter_filter rm cfg p.2 = true)
    (hocc : (strstr param (Z_STRVAL_P p.2)).isSome = true)
    (hk : count + ((filtered rm cfg pre).length : Int) + 1 ≤ cfg.max_detection_num) :
    ∃ q ∈ pre ++ [p], _gpc_parameter_filter rm cfg q.2 = true ∧
      (strstr param (Z_STRVAL_P q.2)).isSome = true ∧
      foreach_val rm cfg act param (pre ++ p :: post) count =
        (SUCCESS, [reflected_report act (Z_STRVAL_P q.2)]) ∧
      ((∀ x ∈ pre, _gpc_parameter_filter rm cfg x.2 = true →
        strstr param (Z_STRVAL_P x.2) = none) → q = p) := by
  induction pre generalizing count with
  | nil =>
    obtain ⟨k, v⟩ := p
    have hle : ¬ count + 1 > cfg.max_detection_num := by
      simp only [filtered, List.filter_nil, List.length_nil, Nat.cast_zero] at hk
      omega
    exact ⟨(k, v), by simp, hp, hocc,
      foreach_val_cons_reflect rm cfg act param k v post count hp hle hocc, fun _ => rfl⟩
  | cons x pre ih =>
    obtain ⟨k, v⟩ := x
    by_cases hq : _gpc_parameter_filter rm cfg v = true
    · rw [filtered_cons_pos rm cfg (k, v) pre hq] at hk
      simp only [List.length_cons, Nat.cast_add, Nat.cast_one] at hk
      have hnn : (0 : Int) ≤ ((filtered rm cfg pre).length : Int) := Int.natCast_nonneg _
      have hle : ¬ count + 1 > cfg.max_detection_num := by omega
      cases hs : strstr param (Z_STRVAL_P v) with
      | some w =>
        have hsome : (strstr param (Z_STRVAL_P v)).isSome = true := by rw [hs]; rfl
        refine ⟨(k, v), by simp, hq, hsome,
          foreach_val_cons_reflect rm cfg act param k v _ count hq hle hsome, ?_⟩
        intro hall
        have := hall (k, v) (List.mem_cons_self _ _) hq
        rw [hs] at this
        exact absurd this (by simp)
      | none =>
        obtain ⟨q, hmem, hqf, hqs, hres, hfirst⟩ := ih (count + 1) (by omega)
        refine ⟨q, List.mem_cons_of_mem _ hmem, hqf, hqs, ?_, ?_⟩
        · rw [List.cons_append, foreach_val_cons_next rm cfg act param k v _ count hq hle hs]
          exact hres
        · exact fun hall => hfirst (fun y hy => hall y (List.mem_cons_of_mem _ hy))
    · rw [filtered_cons_neg rm cfg (k, v) pre hq] at hk
      obtain ⟨q, hmem, hqf, hqs, hres, hfirst⟩ := ih count hk
      refine ⟨q, List.mem_cons_of_mem _ hmem, hqf, hqs, ?_, ?_⟩
      · rw [List.cons_append, foreach_val_cons_fail rm cfg act param k v _ count hq]
        exact hres
      · exact fun hall => hfirst (fun y hy => hall y (List.mem_cons_of_mem _ hy))

end scan

theorem reflected_report_inj (a b : OpenRASPActionType) (v w : CString)
    (h : reflected_report a v = reflected_report b w) : v = w := by
  simp only [reflected_report, ZVAL_STRING, effect.openrasp_buildin_php_risk_handle.injEq,
    List.cons.injEq, Prod.mk.injEq, zval.IS_STRING.injEq, zend_string.mk.injEq] at h
  exact h.2.2.2.1.1.2.2

theorem excessive_report_inj (a b : OpenRASPActionType) (m n : Int)
    (h : excessive_report a m = excessive_report b n) : m = n := by
  simp only [excessive_report, effect.openrasp_buildin_php_risk_handle.injEq,
    List.cons.injEq, Prod.mk.injEq, zval.IS_LONG.injEq] at h
  exact h.2.2.2.1.1.2

theorem reflected_ne_excessive (a b : OpenRASPActionType) (v : CString) (n : Int) :
    reflected_report a v ≠ excessive_report b n := by
  intro h
  simp only [reflected_report, excessive_report, effect.openrasp_buildin_php_risk_handle.injEq,
    List.cons.injEq, Prod.mk.injEq] at h
  exact absurd h.2.2.2.1.1.1 (by decide)

theorem filter_true_iff (rm : CString → CString → Bool) (cfg : xss_config) (param : zval) :
    _gpc_parameter_filter rm cfg param = true ↔
      ∃ str, param = zval.IS_STRING str ∧ cfg.min_param_length < str.len ∧
        rm str.val cfg.filter_regex = true := by
  cases param with
  | IS_STRING str =>
    simp only [_gpc_parameter_filter, gt_iff_lt, zval.IS_STRING.injEq, exists_eq_left']
    by_cases h1 : cfg.min_param_length < str.len <;>
      by_cases h2 : rm str.val cfg.filter_regex = true <;> simp [h1, h2]
  | IS_NULL => simp [_gpc_parameter_filter]
  | IS_LONG n => simp [_gpc_parameter_filter]
  | IS_ARRAY arr => simp [_gpc_parameter_filter]

/-! ## Lemmas on the scan of the GET parameters and the handler -/

theorem detect_eq_foreach_val (r : request) (param : CString) (ht : HashTable)
    (hget : r.GET = some ht) :
    _detect_param_occur_in_html_output r param =
      foreach_val r.regex_match r.config r.action param ht 0 := by
  simp [_detect_param_occur_in_html_output, hget]

theorem detect_reflected_inv (r : request) (param : CString) (ht : HashTable)
    (hget : r.GET = some ht) (val : CString)
    (hrep : reflected_report r.action val ∈ (_detect_param_occur_in_html_output r param).2) :
    ∃ pre p post, ht = pre ++ p :: post ∧
      _gpc_parameter_filter r.regex_match r.config p.2 = true ∧
      Z_STRVAL_P p.2 <:+: param ∧
      (∀ x ∈ pre, _gpc_parameter_filter r.regex_match r.config x.2 = true →
        ¬ Z_STRVAL_P x.2 <:+: param) ∧
      val = Z_STRVAL_P p.2 ∧
      ((filtered r.regex_match r.config pre).length : Int) + 1 ≤ r.config.max_detection_num ∧
      _detect_param_occur_in_html_output r param = (SUCCESS, [reflected_report r.action val]) := by
  rw [detect_eq_foreach_val r param ht hget] at hrep ⊢
  rcases foreach_val_cases r.regex_match r.config r.action param ht 0 with
    ⟨hf, _, _⟩ | ⟨pre, p, post, hl, hpre, hp, ⟨hk, hs, hres⟩ | ⟨_, hres⟩⟩
  · rw [hf] at hrep
    simp at hrep
  · rw [hres] at hrep ⊢
    have hv : val = Z_STRVAL_P p.2 :=
      reflected_report_inj _ _ _ _ (List.mem_singleton.mp hrep)
    refine ⟨pre, p, post, hl, hp, (strstr_isSome_iff _ _).mp hs, ?_, hv, by omega, by rw [hv]⟩
    exact fun x hx hxf => (strstr_eq_none_iff _ _).mp (hpre x hx hxf)
  · rw [hres] at hrep
    exact absurd (List.mem_singleton.mp hrep) (reflected_ne_excessive _ _ _ _)

theorem detect_excessive_inv (r : request) (param : CString) (ht : HashTable)
    (hget : r.GET = some ht) (n : Int)
    (hrep : excessive_report r.action n ∈ (_detect_param_occur_in_html_output r param).2) :
    ∃ pre p post, ht = pre ++ p :: post ∧
      _gpc_parameter_filter r.regex_match r.config p.2 = true ∧
      (∀ x ∈ pre, _gpc_parameter_filter r.regex_match r.config x.2 = true →
        ¬ Z_STRVAL_P x.2 <:+: param) ∧
      n = ((filtered r.regex_match r.config pre).length : Int) + 1 ∧
      r.config.max_detection_num < n ∧
      _detect_param_occur_in_html_output r param = (SUCCESS, [excessive_report r.action n]) := by
  rw [detect_eq_foreach_val r param ht hget] at hrep ⊢
  rcases foreach_val_cases r.regex_match r.config r.action param ht 0 with
    ⟨hf, _, _⟩ | ⟨pre, p, post, hl, hpre, hp, ⟨_, _, hres⟩ | ⟨hk, hres⟩⟩
  · rw [hf] at hrep
    simp at hrep
  · rw [hres] at hrep
    exact absurd (List.mem_singleton.mp hrep).symm (reflected_ne_excessive _ _ _ _)
  · rw [hres] at hrep ⊢
    have hn : n = 0 + ((filtered r.regex_match r.config pre).length : Int) + 1 :=
      excessive_report_inj _ _ _ _ (List.mem_singleton.mp hrep)
    refine ⟨pre, p, post, hl, hp, ?_, by omega, by omega, by rw [hn]⟩
    exact fun x hx hxf => (strstr_eq_none_iff _ _).mp (hpre x hx hxf)

theorem content_type_line_clears (value : CString) (hval : ¬ "text/html".toList <:+: value) :
    clears_is_html ⟨"Content-type:".toList ++ value⟩ := by
  have e : "Content-type:".toList ++ value = suffix ++ ':' :: value := rfl
  refine ⟨?_, ?_, ?_⟩
  · show suffix.length < ("Content-type:".toList ++ value).length
    rw [e, List.length_append, List.length_cons]
    omega
  · exact ⟨':' :: value, e.symm⟩
  · show ¬ "text/html".toList <:+: "Content-type:".toList ++ value
    rw [e]
    intro h
    rcases infix_of_infix_append_cons _ _ _ _ (by decide) h with h1 | h2
    · exact absurd h1 (by decide)
    · exact hval h2

theorem handler_not_html (r : request) (output_context : php_output_context)
    (h : _is_content_type_html r.headers = false) :
    openrasp_output_handler r output_context = (FAILURE, []) := by
  simp [openrasp_output_handler, h]

theorem detect_cases (r : request) (param : CString) :
    _detect_param_occur_in_html_output r param = (FAILURE, []) ∨
    (∃ val, _detect_param_occur_in_html_output r param =
      (SUCCESS, [reflected_report r.action val])) ∨
    (∃ n, _detect_param_occur_in_html_output r param =
      (SUCCESS, [excessive_report r.action n])) := by
  cases hget : r.GET with
  | none =>
    left
    simp [_detect_param_occur_in_html_output, hget]
  | some ht =>
    rw [detect_eq_foreach_val r param ht hget]
    rcases foreach_val_cases r.regex_match r.config r.action param ht 0 with
      ⟨hf, _, _⟩ | ⟨_, p, _, _, _, _, ⟨_, _, hres⟩ | ⟨_, hres⟩⟩
    · exact Or.inl hf
    · exact Or.inr (Or.inl ⟨_, hres⟩)
    · exact Or.inr (Or.inr ⟨_, hres⟩)

theorem handler_complete_html (r : request) (output_context : php_output_context)
    (hhtml : _is_content_type_html r.headers = true)
    (hstart : output_context.op &&& PHP_OUTPUT_HANDLER_START ≠ 0)
    (hfinal : output_context.op &&& PHP_OUTPUT_HANDLER_FINAL ≠ 0) :
    openrasp_output_handler r output_context =
      if (_detect_param_occur_in_html_output r output_context.in_data).1 = SUCCESS then
        ((_detect_param_occur_in_html_output r output_context.in_data).1,
          (_detect_param_occur_in_html_output r output_context.in_data).2 ++
            [effect.set_location_header])
      else _detect_param_occur_in_html_output r output_context.in_data := by
  unfold openrasp_output_handler
  rw [if_pos ⟨hhtml, hstart, hfinal⟩]

theorem handler_cases (r : request) (output_context : php_output_context) :
    openrasp_output_handler r output_context = (FAILURE, []) ∨
    ∃ report, is_risk_handle report = true ∧
      _detect_param_occur_in_html_output r output_context.in_data = (SUCCESS, [report]) ∧
      openrasp_output_handler r output_context =
        (SUCCESS, [report, effect.set_location_header]) := by
  by_cases hc : _is_content_type_html r.headers = true ∧
      output_context.op &&& PHP_OUTPUT_HANDLER_START ≠ 0 ∧
      output_context.op &&& PHP_OUTPUT_HANDLER_FINAL ≠ 0
  · rw [handler_complete_html r output_context hc.1 hc.2.1 hc.2.2]
    rcases detect_cases r output_context.in_data with h | ⟨val, h⟩ | ⟨n, h⟩
    · left
      rw [h]
      simp [FAILURE, SUCCESS]
    · right
      exact ⟨reflected_report r.action val, rfl, h, by rw [h]; simp⟩
    · right
      exact ⟨excessive_report r.action n, rfl, h, by rw [h]; simp⟩
  · left
    unfold openrasp_output_handler
    rw [if_neg hc]

theorem foreach_val_string_entries (rm : CString → CString → Bool) (cfg : xss_config)
    (act : OpenRASPActionType) (param : CString) (ht : HashTable) (count : Int) :
    foreach_val rm cfg act param (string_entries ht) count =
      foreach_val rm cfg act param ht count := by
  induction ht generalizing count with
  | nil => rfl
  | cons q ht ih =>
    obtain ⟨k, v⟩ := q
    cases v with
    | IS_STRING str =>
      have e : string_entries ((k, zval.IS_STRING str) :: ht) =
          (k, zval.IS_STRING str) :: string_entries ht := by
        simp [string_entries, is_string]
      rw [e]
      simp only [foreach_val, ih]
    | IS_NULL =>
      have e : string_entries ((k, zval.IS_NULL) :: ht) = string_entries ht := by
        simp [string_entries, is_string]
      rw [e, foreach_val_cons_fail rm cfg act param k _ ht count (by simp [_gpc_parameter_filter])]
      exact ih count
    | IS_LONG n =>
      have e : string_entries ((k, zval.IS_LONG n) :: ht) = string_entries ht := by
        simp [string_entries, is_string]
      rw [e, foreach_val_cons_fail rm cfg act param k _ ht count (by simp [_gpc_parameter_filter])]
      exact ih count
    | IS_ARRAY arr =>
      have e : string_entries ((k, zval.IS_ARRAY arr) :: ht) = string_entries ht := by
        simp [string_entries, is_string]
      rw [e, foreach_val_cons_fail rm cfg act param k _ ht count (by simp [_gpc_parameter_filter])]
      exact ih count

theorem success_ne_failure : SUCCESS ≠ FAILURE := by decide

theorem foreach_val_failure_iff (rm : CString → CString → Bool) (cfg : xss_config)
    (act : OpenRASPActionType) (param : CString) (ht : HashTable) (count : Int) :
    foreach_val rm cfg act param ht count = (FAILURE, []) ↔
      (∀ q ∈ ht, _gpc_parameter_filter rm cfg q.2 = true → ¬ Z_STRVAL_P q.2 <:+: param) ∧
      (filtered rm cfg ht = [] ∨
        count + ((filtered rm cfg ht).length : Int) ≤ cfg.max_detection_num) := by
  constructor
  · intro h
    rcases foreach_val_cases rm cfg act param ht count with
      ⟨_, hall, hcap⟩ | ⟨_, _, _, _, _, _, ⟨_, _, hres⟩ | ⟨_, hres⟩⟩
    · exact ⟨fun q hq hqf => (strstr_eq_none_iff _ _).mp (hall q hq hqf), hcap⟩
    · rw [h] at hres
      exact absurd (congrArg Prod.fst hres).symm success_ne_failure
    · rw [h] at hres
      exact absurd (congrArg Prod.fst hres).symm success_ne_failure
  · rintro ⟨hall, hnil | hcap⟩
    · apply foreach_val_none_pass
      intro q hq
      cases hf : _gpc_parameter_filter rm cfg q.2
      · rfl
      · have : q ∈ filtered rm cfg ht := List.mem_filter.mpr ⟨hq, by simpa using hf⟩
        rw [hnil] at this
        simp at this
    · have := foreach_val_skip rm cfg act param ht [] count
        (fun q hq hqf => (strstr_eq_none_iff _ _).mpr (hall q hq hqf)) hcap
      rw [List.append_nil] at this
      rw [this]
      rfl

theorem filter_with_max (rm : CString → CString → Bool) (cfg : xss_config) (m : Int)
    (v : zval) :
    _gpc_parameter_filter rm { cfg with max_detection_num := m } v =
      _gpc_parameter_filter rm cfg v := by
  cases v <;> rfl

theorem filtered_with_max (rm : CString → CString → Bool) (cfg : xss_config) (m : Int)
    (ht : HashTable) :
    filtered rm { cfg with max_detection_num := m } ht = filtered rm cfg ht := by
  unfold filtered
  congr 1

/-! ## Lemmas on the functions over their variables -/

theorem run_check_header_eq (data : sapi_header_struct) (σ : storage)
    (hs : σ.suffix = suffix) :
    run_check_header_content_type_if_html data σ =
      { σ with is_html := _check_header_content_type_if_html data σ.is_html } := by
  obtain ⟨sfx, st, html, dst, cnt⟩ := σ
  simp only at hs
  subst hs
  unfold run_check_header_content_type_if_html _check_header_content_type_if_html
  cases html
  · simp
  · simp only [if_true]
    split <;> rfl

theorem run_apply_check_eq (headers : List sapi_header_struct) (σ : storage)
    (hs : σ.suffix = suffix) :
    zend_llist_apply_with_argument headers run_check_header_content_type_if_html σ =
      { σ with is_html :=
        zend_llist_apply_with_argument headers _check_header_content_type_if_html σ.is_html } := by
  induction headers generalizing σ with
  | nil => rfl
  | cons h hs' ih =>
    have step : zend_llist_apply_with_argument (h :: hs')
        run_check_header_content_type_if_html σ =
        zend_llist_apply_with_argument hs' run_check_header_content_type_if_html
          (run_check_header_content_type_if_html h σ) := rfl
    rw [step, run_check_header_eq h σ hs,
      ih { σ with is_html := _check_header_content_type_if_html h σ.is_html } hs]
    rfl

theorem run_is_content_type_html_eq (headers : List sapi_header_struct) (σ : storage)
    (hs : σ.suffix = suffix) :
    run_is_content_type_html headers σ =
      (_is_content_type_html headers, { σ with is_html := _is_content_type_html headers }) := by
  unfold run_is_content_type_html
  simp only
  rw [run_apply_check_eq headers { σ with is_html := true } hs]
  rfl

theorem run_foreach_val_eq (rm : CString → CString → Bool) (cfg : xss_config)
    (act : OpenRASPActionType) (param : CString) (ht : HashTable) (σ : storage)
    (hst : σ.detect_status = FAILURE) :
    (run_foreach_val rm cfg act param ht σ).1 = foreach_val rm cfg act param ht σ.count ∧
      (run_foreach_val rm cfg act param ht σ).2.suffix = σ.suffix := by
  induction ht generalizing σ with
  | nil =>
    simp [run_foreach_val, foreach_val, hst]
  | cons q ht ih =>
    obtain ⟨k, v⟩ := q
    by_cases hq : _gpc_parameter_filter rm cfg v = true
    · by_cases hgt : σ.count + 1 > cfg.max_detection_num
      · simp [run_foreach_val, foreach_val, hq, hgt]
      · by_cases hs : (strstr param (Z_STRVAL_P v)).isSome = true
        · simp [run_foreach_val, foreach_val, hq, hgt, hs]
        · have := ih { σ with count := σ.count + 1 } hst
          simpa [run_foreach_val, foreach_val, hq, hgt, hs] using this
    · have := ih σ hst
      simpa [run_foreach_val, foreach_val, hq] using this

theorem run_detect_eq (r : request) (param : CString) (σ : storage) :
    (run_detect_param_occur_in_html_output r param σ).1 =
        _detect_param_occur_in_html_output r param ∧
      (run_detect_param_occur_in_html_output r param σ).2.suffix = σ.suffix := by
  unfold run_detect_param_occur_in_html_output _detect_param_occur_in_html_output
  cases r.GET with
  | none => exact ⟨rfl, rfl⟩
  | some ht =>
    exact run_foreach_val_eq r.regex_match r.config r.action param ht
      { σ with detect_status := FAILURE, count := 0 } rfl

theorem run_handler_eq (r : request) (output_context : php_output_context) (σ : storage)
    (hs : σ.suffix = suffix) :
    (run_openrasp_output_handler r output_context σ).1 =
        openrasp_output_handler r output_context ∧
      (run_openrasp_output_handler r output_context σ).2.suffix = suffix := by
  have e := run_is_content_type_html_eq r.headers { σ with status := FAILURE } hs
  obtain ⟨hd1, hd2⟩ := run_detect_eq r output_context.in_data
    { σ with status := FAILURE, is_html := _is_content_type_html r.headers }
  simp only [run_openrasp_output_handler, openrasp_output_handler, e]
  by_cases hc : _is_content_type_html r.headers = true ∧
      output_context.op &&& PHP_OUTPUT_HANDLER_START ≠ 0 ∧
      output_context.op &&& PHP_OUTPUT_HANDLER_FINAL ≠ 0
  · rw [if_pos hc, if_pos hc]
    simp only [hd1]
    split
    · exact ⟨rfl, by simpa [hs] using hd2⟩
    · exact ⟨rfl, by simpa [hs] using hd2⟩
  · rw [if_neg hc, if_neg hc]
    exact ⟨rfl, hs⟩

/-! ## The properties -/

/-- C1: when the response headers hold a `Content-type` header whose value lacks
`text/html`, the handler returns `FAILURE` and calls neither the risk handler nor
`set_location_header`, whatever the body, the GET parameters and the output event. -/
theorem C1_content_type_without_text_html (r : request) (output_context : php_output_context)
    (value : CString)
    (hmem : sapi_header_struct.mk ("Content-type:".toList ++ value) ∈ r.headers)
    (hval : ¬ "text/html".toList <:+: value) :
    openrasp_output_handler r output_context = (FAILURE, []) :=
  handler_not_html r output_context
    ((is_content_type_html_eq_false_iff r.headers).mpr
      ⟨_, hmem, content_type_line_clears value hval⟩)

theorem C1_content_type_without_text_html_witness :
    openrasp_output_handler
      (example_request 3 2 ["X-Powered-By: PHP".toList, "Content-type: application/json".toList]
        [("q".toList, "<script>".toList)])
      (complete_output "a<script>b".toList) = (FAILURE, []) :=
  C1_content_type_without_text_html _ _ " application/json".toList (by decide) (by decide)

/-- C2: when a GET parameter `p` passes the filter, its value occurs in the body
and it is the `k`-th filter-passing parameter with `k ≤ max_detection_num` (so the
cap is at least 1), `_detect_param_occur_in_html_output` returns `SUCCESS` with
one reflected-parameter report. The report is for a filter-passing parameter, up
to `p`, whose value occurs in the body, and for `p` itself when no filter-passing
parameter before it has its value in the body. -/
theorem C2_reflected_parameter_reported (r : request) (param : CString) (pre post : HashTable)
    (p : CString × zval)
    (hget : r.GET = some (pre ++ p :: post))
    (hp : _gpc_parameter_filter r.regex_match r.config p.2 = true)
    (hocc : Z_STRVAL_P p.2 <:+: param)
    (hk : ((filtered r.regex_match r.config pre).length : Int) + 1 ≤
      r.config.max_detection_num) :
    1 ≤ r.config.max_detection_num ∧
    ∃ q ∈ pre ++ [p], _gpc_parameter_filter r.regex_match r.config q.2 = true ∧
      Z_STRVAL_P q.2 <:+: param ∧
      _detect_param_occur_in_html_output r param =
        (SUCCESS, [reflected_report r.action (Z_STRVAL_P q.2)]) ∧
      ((∀ x ∈ pre, _gpc_parameter_filter r.regex_match r.config x.2 = true →
        ¬ Z_STRVAL_P x.2 <:+: param) → q = p) := by
  refine ⟨by have := Int.natCast_nonneg (filtered r.regex_match r.config pre).length; omega, ?_⟩
  rw [detect_eq_foreach_val r param _ hget]
  obtain ⟨q, hmem, hqf, hqs, hres, hfirst⟩ :=
    foreach_val_first_reflected r.regex_match r.config r.action param pre post p 0 hp
      ((strstr_isSome_iff _ _).mpr hocc) (by omega)
  refine ⟨q, hmem, hqf, (strstr_isSome_iff _ _).mp hqs, hres, fun hall => hfirst ?_⟩
  exact fun x hx hxf => (strstr_eq_none_iff _ _).mpr (hall x hx hxf)

theorem C2_reflected_parameter_reported_witness :
    _detect_param_occur_in_html_output
      (example_request 3 2 [] [("a".toList, "<em>".toList), ("id".toList, "7".toList),
        ("q".toList, "<script>".toList), ("z".toList, "<b>x".toList)])
      "<p><script></p>".toList = (SUCCESS, [reflected_report 0 "<script>".toList]) := by
  obtain ⟨_, q, _, _, _, hres, hfirst⟩ := C2_reflected_parameter_reported
    (example_request 3 2 [] [("a".toList, "<em>".toList), ("id".toList, "7".toList),
      ("q".toList, "<script>".toList), ("z".toList, "<b>x".toList)])
    "<p><script></p>".toList
    [("a".toList, ZVAL_STRING "<em>".toList), ("id".toList, ZVAL_STRING "7".toList)]
    [("z".toList, ZVAL_STRING "<b>x".toList)]
    ("q".toList, ZVAL_STRING "<script>".toList) rfl (by decide) (by decide) (by decide)
  rw [hres, hfirst (by decide)]
  rfl

/-- C3, as stated, fails at its own example: with `min_param_length = 3`,
`max_detection_num = 2` and GET `a=<x>`, `b=<y>`, `c=<z>`, the three values have
length 3, which is not more than 3, so none passes the filter and the scan ends
with `FAILURE` and no report instead of an excessive count of 3. -/
theorem C3_counterexample :
    _detect_param_occur_in_html_output
        (example_request 3 2 [] [("a".toList, "<x>".toList), ("b".toList, "<y>".toList),
          ("c".toList, "<z>".toList)])
        "<p>hello</p>".toList = (FAILURE, []) ∧
      _detect_param_occur_in_html_output
        (example_request 3 2 [] [("a".toList, "<x>".toList), ("b".toList, "<y>".toList),
          ("c".toList, "<z>".toList)])
        "<p>hello</p>".toList ≠ (SUCCESS, [excessive_report 0 3]) := by
  constructor
  · rfl
  · intro h
    have h1 := congrArg Prod.fst h
    exact absurd h1 (by decide)

/-- C3, amended: when `p` is a filter-passing GET parameter with exactly
`max_detection_num` filter-passing parameters before it (so the cap is not
negative and more than `max_detection_num` parameters pass), and none of those
has its value in the body, `_detect_param_occur_in_html_output` returns `SUCCESS`
with one excessive-count report of count `max_detection_num + 1`, whether or not
the value of `p` is in the body and whatever parameters follow `p`. -/
theorem C3_excessive_count_reported (r : request) (param : CString) (pre post : HashTable)
    (p : CString × zval)
    (hp : _gpc_parameter_filter r.regex_match r.config p.2 = true)
    (hcount : ((filtered r.regex_match r.config pre).length : Int) = r.config.max_detection_num)
    (hpre : ∀ x ∈ pre, _gpc_parameter_filter r.regex_match r.config x.2 = true →
      ¬ Z_STRVAL_P x.2 <:+: param) :
    0 ≤ r.config.max_detection_num ∧
    _detect_param_occur_in_html_output { r with GET := some (pre ++ p :: post) } param =
      (SUCCESS, [excessive_report r.action (r.config.max_detection_num + 1)]) := by
  refine ⟨by rw [← hcount]; exact Int.natCast_nonneg _, ?_⟩
  obtain ⟨k, v⟩ := p
  show foreach_val r.regex_match r.config r.action param (pre ++ (k, v) :: post) 0 = _
  rw [foreach_val_skip r.regex_match r.config r.action param pre _ 0
      (fun x hx hxf => (strstr_eq_none_iff _ _).mpr (hpre x hx hxf)) (by omega),
    foreach_val_cons_excess r.regex_match r.config r.action param k v post _ hp (by omega)]
  congr 3
  omega

theorem C3_excessive_count_reported_witness :
    _detect_param_occur_in_html_output
        (example_request 2 2 [] [("a".toList, "<x>".toList), ("b".toList, "<y>".toList),
          ("c".toList, "<z>".toList)])
        "<p>hello</p>".toList = (SUCCESS, [excessive_report 0 3]) ∧
      _detect_param_occur_in_html_output
        (example_request 2 2 [] [("a".toList, "<x>".toList), ("b".toList, "<y>".toList),
          ("c".toList, "<z>".toList), ("d".toList, "<p>".toList)])
        "<p>hello <z></p>".toList = (SUCCESS, [excessive_report 0 3]) :=
  ⟨(C3_excessive_count_reported (example_request 2 2 [] []) "<p>hello</p>".toList
      [("a".toList, ZVAL_STRING "<x>".toList), ("b".toList, ZVAL_STRING "<y>".toList)] []
      ("c".toList, ZVAL_STRING "<z>".toList) (by decide) (by decide) (by decide)).2,
    (C3_excessive_count_reported (example_request 2 2 [] []) "<p>hello <z></p>".toList
      [("a".toList, ZVAL_STRING "<x>".toList), ("b".toList, ZVAL_STRING "<y>".toList)]
      [("d".toList, ZVAL_STRING "<p>".toList)]
      ("c".toList, ZVAL_STRING "<z>".toList) (by decide) (by decide) (by decide)).2⟩

/-- C4: when every string value of the GET parameters has a length of at most
`min_param_length`, the scan and the handler return `FAILURE` and call neither
the risk handler nor `set_location_header`, for every body, header list, output
event and filter pattern, also when the values occur in the body. -/
theorem C4_short_values_no_finding (r : request) (output_context : php_output_context)
    (h : ∀ ht, r.GET = some ht → ∀ x ∈ ht, ∀ str, x.2 = zval.IS_STRING str →
      str.len ≤ r.config.min_param_length) :
    _detect_param_occur_in_html_output r output_context.in_data = (FAILURE, []) ∧
      openrasp_output_handler r output_context = (FAILURE, []) := by
  have hd : _detect_param_occur_in_html_output r output_context.in_data = (FAILURE, []) := by
    cases hget : r.GET with
    | none => simp [_detect_param_occur_in_html_output, hget]
    | some ht =>
      rw [detect_eq_foreach_val r _ ht hget]
      apply foreach_val_none_pass
      intro x hx
      cases hf : _gpc_parameter_filter r.regex_match r.config x.2
      · rfl
      · obtain ⟨str, hstr, hlen, _⟩ := (filter_true_iff _ _ _).mp hf
        have := h ht hget x hx str hstr
        omega
  refine ⟨hd, ?_⟩
  unfold openrasp_output_handler
  split
  · rw [hd]
    simp [FAILURE, SUCCESS]
  · rfl

theorem C4_short_values_no_finding_witness :
    openrasp_output_handler (example_request 3 2 [] [("q".toList, "hi".toList)])
      (complete_output "<p>hi there</p>".toList) = (FAILURE, []) :=
  (C4_short_values_no_finding (example_request 3 2 [] [("q".toList, "hi".toList)])
    (complete_output "<p>hi there</p>".toList) (by
      intro ht hget x hx str hstr
      cases hget
      simp only [List.map_cons, List.map_nil, List.mem_singleton] at hx
      subst hx
      cases hstr
      decide)).2

/-- C5, as stated, fails at its own example: with GET `q=<script>` and a body
holding `<script>`, the payload sent to the risk handler has the single entry
`parameter` with the value `<script>`; the name `q` is nowhere in the report. -/
theorem C5_counterexample :
    _detect_param_occur_in_html_output
        (example_request 3 2 [] [("q".toList, "<script>".toList)])
        "<p><script></p>".toList =
      (SUCCESS, [effect.openrasp_buildin_php_risk_handle 0 OpenRASPCheckType.XSS 100
        [("parameter".toList, zval.IS_STRING ⟨8, "<script>".toList⟩)]
        (zval.IS_STRING ⟨62,
          "Reflected XSS attack detected: using get parameter: '<script>'".toList⟩)]) ∧
      "<script>".toList ≠ "q".toList := by
  constructor
  · rfl
  · decide

/-- C5, amended: when a reflected parameter is reported, the payload sent to the
risk handler identifies it by its value: every `parameter` entry of a payload is
the value of a GET parameter that passes the filter and occurs in the body, and
that value is also the one quoted in the message. -/
theorem C5_report_carries_value (r : request) (param : CString) (ht : HashTable)
    (hget : r.GET = some ht) (action : OpenRASPActionType) (type : OpenRASPCheckType)
    (confidence : Int) (attack_params : HashTable) (plugin_message z : zval)
    (hrep : effect.openrasp_buildin_php_risk_handle action type confidence attack_params
      plugin_message ∈ (_detect_param_occur_in_html_output r param).2)
    (hentry : ("parameter".toList, z) ∈ attack_params) :
    ∃ x ∈ ht, _gpc_parameter_filter r.regex_match r.config x.2 = true ∧
      Z_STRVAL_P x.2 <:+: param ∧
      z = ZVAL_STRING (Z_STRVAL_P x.2) ∧
      attack_params = [("parameter".toList, ZVAL_STRING (Z_STRVAL_P x.2))] ∧
      plugin_message = reflected_message (Z_STRVAL_P x.2) := by
  rw [detect_eq_foreach_val r param ht hget] at hrep
  rcases foreach_val_cases r.regex_match r.config r.action param ht 0 with
    ⟨hf, _, _⟩ | ⟨pre, p, post, hl, _, hp, ⟨_, hs, hres⟩ | ⟨_, hres⟩⟩
  · rw [hf] at hrep
    simp at hrep
  · rw [hres] at hrep
    have he := List.mem_singleton.mp hrep
    simp only [reflected_report, effect.openrasp_buildin_php_risk_handle.injEq] at he
    obtain ⟨_, _, _, hparams, hmsg⟩ := he
    refine ⟨p, by rw [hl]; simp, hp, (strstr_isSome_iff _ _).mp hs, ?_, hparams, hmsg⟩
    rw [hparams] at hentry
    simpa using hentry
  · rw [hres] at hrep
    have he := List.mem_singleton.mp hrep
    simp only [excessive_report, effect.openrasp_buildin_php_risk_handle.injEq] at he
    obtain ⟨_, _, _, hparams, _⟩ := he
    rw [hparams] at hentry
    simp only [List.mem_singleton, Prod.mk.injEq] at hentry
    exact absurd hentry.1 (by decide)

theorem C5_report_carries_value_witness :
    ∃ x ∈ [("q".toList, ZVAL_STRING "<script>".toList)],
      _gpc_parameter_filter regex_contains_lt ⟨3, 2, "<".toList⟩ x.2 = true ∧
      Z_STRVAL_P x.2 <:+: "<p><script></p>".toList ∧
      ZVAL_STRING "<script>".toList = ZVAL_STRING (Z_STRVAL_P x.2) ∧
      [("parameter".toList, ZVAL_STRING "<script>".toList)] =
        [("parameter".toList, ZVAL_STRING (Z_STRVAL_P x.2))] ∧
      reflected_message "<script>".toList = reflected_message (Z_STRVAL_P x.2) :=
  C5_report_carries_value (example_request 3 2 [] [("q".toList, "<script>".toList)])
    "<p><script></p>".toList [("q".toList, ZVAL_STRING "<script>".toList)] rfl
    0 OpenRASPCheckType.XSS 100 [("parameter".toList, ZVAL_STRING "<script>".toList)]
    (reflected_message "<script>".toList) (ZVAL_STRING "<script>".toList)
    (by
      have e : _detect_param_occur_in_html_output
          (example_request 3 2 [] [("q".toList, "<script>".toList)]) "<p><script></p>".toList =
          (SUCCESS, [effect.openrasp_buildin_php_risk_handle 0 OpenRASPCheckType.XSS 100
            [("parameter".toList, ZVAL_STRING "<script>".toList)]
            (reflected_message "<script>".toList)]) := rfl
      rw [e]
      exact List.mem_singleton.mpr rfl)
    (List.mem_singleton.mpr rfl)

/-- C6: with `max_detection_num ≥ 1`, whenever the scan makes a reflected-parameter
report, it is the only report, and it is for the first GET parameter, in iteration
order, that both passes the filter and has its value in the body; in particular,
for two parameters `[p1, p2]` that both pass the filter and both occur in the
body, the one report made is for `p1`. -/
theorem C6_first_reflected_reported (r : request) (param : CString) (ht : HashTable)
    (hget : r.GET = some ht) (hmax : 1 ≤ r.config.max_detection_num) :
    (∀ val, reflected_report r.action val ∈ (_detect_param_occur_in_html_output r param).2 →
      ∃ pre p post, ht = pre ++ p :: post ∧
        (∀ x ∈ pre, ¬ (_gpc_parameter_filter r.regex_match r.config x.2 = true ∧
          Z_STRVAL_P x.2 <:+: param)) ∧
        _gpc_parameter_filter r.regex_match r.config p.2 = true ∧
        Z_STRVAL_P p.2 <:+: param ∧
        val = Z_STRVAL_P p.2 ∧
        _detect_param_occur_in_html_output r param =
          (SUCCESS, [reflected_report r.action (Z_STRVAL_P p.2)])) ∧
    (∀ p1 p2, ht = [p1, p2] →
      _gpc_parameter_filter r.regex_match r.config p1.2 = true → Z_STRVAL_P p1.2 <:+: param →
      _gpc_parameter_filter r.regex_match r.config p2.2 = true → Z_STRVAL_P p2.2 <:+: param →
      _detect_param_occur_in_html_output r param =
        (SUCCESS, [reflected_report r.action (Z_STRVAL_P p1.2)])) := by
  constructor
  · intro val hrep
    obtain ⟨pre, p, post, hl, hp, hocc, hpre, hv, _, hres⟩ :=
      detect_reflected_inv r param ht hget val hrep
    exact ⟨pre, p, post, hl, fun x hx hh => hpre x hx hh.1 hh.2, hp, hocc, hv, by rw [← hv]; exact hres⟩
  · intro p1 p2 hl hp1 ho1 _ _
    obtain ⟨k, v⟩ := p1
    rw [detect_eq_foreach_val r param ht hget, hl]
    exact foreach_val_cons_reflect r.regex_match r.config r.action param k v [p2] 0 hp1
      (by omega) ((strstr_isSome_iff _ _).mpr ho1)

theorem C6_first_reflected_reported_witness :
    _detect_param_occur_in_html_output
      (example_request 3 2 [] [("a".toList, "<em>".toList), ("b".toList, "<script>".toList)])
      "<p><script><em></p>".toList = (SUCCESS, [reflected_report 0 "<em>".toList]) :=
  (C6_first_reflected_reported
    (example_request 3 2 [] [("a".toList, "<em>".toList), ("b".toList, "<script>".toList)])
    "<p><script><em></p>".toList
    [("a".toList, ZVAL_STRING "<em>".toList), ("b".toList, ZVAL_STRING "<script>".toList)]
    rfl (by decide)).2
    ("a".toList, ZVAL_STRING "<em>".toList) ("b".toList, ZVAL_STRING "<script>".toList) rfl
    (by decide) (by decide) (by decide) (by decide)

/-- C7: a header list, the empty one included, in which no header begins with
`Content-type` is classified as HTML. -/
theorem C7_no_content_type_is_html (headers : List sapi_header_struct)
    (h : ∀ x ∈ headers, ¬ suffix <+: x.header) :
    _is_content_type_html headers = true := by
  cases hv : _is_content_type_html headers
  · obtain ⟨x, hx, _, hp, _⟩ := (is_content_type_html_eq_false_iff headers).mp hv
    exact absurd hp (h x hx)
  · rfl

theorem C7_no_content_type_is_html_witness :
    _is_content_type_html [⟨"X-Powered-By: PHP".toList⟩, ⟨"Cache-Control: no-store".toList⟩] = true ∧
      _is_content_type_html [] = true :=
  ⟨C7_no_content_type_is_html _ (by decide), C7_no_content_type_is_html [] (by simp)⟩

/-- C8, as stated, fails: the header `Content-type-text/html: application/json`
has a name that begins with `Content-type` and a value without `text/html`, and
the classification is still `true`, because the search for `text/html` runs over
the whole line; and a line that is the bare literal `Content-type`, with nothing
after it, is not matched either. -/
theorem C8_counterexample :
    suffix <+: "Content-type-text/html".toList ∧
      ':' ∉ "Content-type-text/html".toList ∧
      ¬ "text/html".toList <:+: " application/json".toList ∧
      _is_content_type_html
        [⟨"Content-type-text/html".toList ++ ':' :: " application/json".toList⟩] = true ∧
      _is_content_type_html [⟨"Content-type".toList⟩] = true := by
  decide

/-- C8, amended: `_is_content_type_html` returns `false` exactly when some header
line is strictly longer than the literal `Content-type`, begins with it
(case-sensitively) and holds `text/html` nowhere in the line; otherwise `true`. -/
theorem C8_not_html_iff (headers : List sapi_header_struct) :
    (_is_content_type_html headers = false ↔
      ∃ x ∈ headers, strlen suffix < strlen x.header ∧ suffix <+: x.header ∧
        ¬ "text/html".toList <:+: x.header) ∧
    (_is_content_type_html headers = true ↔
      ¬ ∃ x ∈ headers, strlen suffix < strlen x.header ∧ suffix <+: x.header ∧
        ¬ "text/html".toList <:+: x.header) := by
  have key : _is_content_type_html headers = false ↔
      ∃ x ∈ headers, strlen suffix < strlen x.header ∧ suffix <+: x.header ∧
        ¬ "text/html".toList <:+: x.header := is_content_type_html_eq_false_iff headers
  refine ⟨key, ?_⟩
  rw [← key]
  cases _is_content_type_html headers <;> simp

/-- C9: `_gpc_parameter_filter` returns `true` only for a string whose length is
strictly greater than `min_param_length` and which the regex engine matches
against `filter_regex`; a string of length exactly `min_param_length` never
passes; and every parameter reported as reflected, and every parameter counted
in a reported excessive count, satisfies both conditions. -/
theorem C9_filter_conditions (r : request) :
    (∀ param, _gpc_parameter_filter r.regex_match r.config param = true →
      ∃ str, param = zval.IS_STRING str ∧ r.config.min_param_length < str.len ∧
        r.regex_match str.val r.config.filter_regex = true) ∧
    (∀ str : zend_string, str.len = r.config.min_param_length →
      _gpc_parameter_filter r.regex_match r.config (zval.IS_STRING str) = false) ∧
    (∀ ht body, r.GET = some ht →
      (∀ val, reflected_report r.action val ∈ (_detect_param_occur_in_html_output r body).2 →
        ∃ x ∈ ht, ∃ str, x.2 = zval.IS_STRING str ∧ val = str.val ∧
          r.config.min_param_length < str.len ∧
          r.regex_match str.val r.config.filter_regex = true) ∧
      (∀ n, excessive_report r.action n ∈ (_detect_param_occur_in_html_output r body).2 →
        ∃ scanned rest, ht = scanned ++ rest ∧
          n = ((filtered r.regex_match r.config scanned).length : Int) ∧
          ∀ x ∈ filtered r.regex_match r.config scanned,
            ∃ str, x.2 = zval.IS_STRING str ∧ r.config.min_param_length < str.len ∧
              r.regex_match str.val r.config.filter_regex = true)) := by
  refine ⟨fun param h => (filter_true_iff _ _ _).mp h, ?_, ?_⟩
  · intro str hlen
    cases hf : _gpc_parameter_filter r.regex_match r.config (zval.IS_STRING str)
    · rfl
    · obtain ⟨s, hs, hlt, _⟩ := (filter_true_iff _ _ _).mp hf
      cases hs
      omega
  · intro ht body hget
    constructor
    · intro val hrep
      obtain ⟨pre, p, post, hl, hp, _, _, hv, _, _⟩ :=
        detect_reflected_inv r body ht hget val hrep
      obtain ⟨str, hstr, hlt, hm⟩ := (filter_true_iff _ _ _).mp hp
      refine ⟨p, by rw [hl]; simp, str, hstr, ?_, hlt, hm⟩
      rw [hv, hstr]
      rfl
    · intro n hrep
      obtain ⟨pre, p, post, hl, hp, _, hn, _, _⟩ := detect_excessive_inv r body ht hget n hrep
      refine ⟨pre ++ [p], post, by rw [hl]; simp, ?_, ?_⟩
      · rw [hn]
        simp [filtered, List.filter_append, hp]
      · intro x hx
        have hxf : _gpc_parameter_filter r.regex_match r.config x.2 = true := by
          simpa using (List.mem_filter.mp hx).2
        exact (filter_true_iff _ _ _).mp hxf

theorem C9_filter_conditions_witness :
    _gpc_parameter_filter regex_contains_lt ⟨3, 2, "<".toList⟩ (ZVAL_STRING "<x>".toList) = false ∧
      ∃ str, ZVAL_STRING "<em>".toList = zval.IS_STRING str ∧ 3 < str.len ∧
        regex_contains_lt str.val "<".toList = true :=
  ⟨(C9_filter_conditions (example_request 3 2 [] [])).2.1 ⟨3, "<x>".toList⟩ rfl,
    (C9_filter_conditions (example_request 3 2 [] [])).1 (ZVAL_STRING "<em>".toList) (by decide)⟩

/-- C10: an output event whose flags lack `PHP_OUTPUT_HANDLER_START` or
`PHP_OUTPUT_HANDLER_FINAL` is ignored: the handler returns `FAILURE` with no call
to the risk handler or to `set_location_header`, whatever the headers, the GET
parameters and the body. -/
theorem C10_partial_output_ignored (r : request) (output_context : php_output_context)
    (h : ¬ (output_context.op &&& PHP_OUTPUT_HANDLER_START ≠ 0 ∧
        output_context.op &&& PHP_OUTPUT_HANDLER_FINAL ≠ 0)) :
    openrasp_output_handler r output_context = (FAILURE, []) := by
  unfold openrasp_output_handler
  rw [if_neg]
  exact fun hh => h hh.2

theorem C10_partial_output_ignored_witness :
    openrasp_output_handler
        (example_request 3 2 ["Content-type: text/html".toList] [("q".toList, "<script>".toList)])
        ⟨PHP_OUTPUT_HANDLER_START, "a<script>b".toList⟩ = (FAILURE, []) ∧
      openrasp_output_handler
        (example_request 3 2 ["Content-type: text/html".toList] [("q".toList, "<script>".toList)])
        ⟨PHP_OUTPUT_HANDLER_FINAL, "a<script>b".toList⟩ = (FAILURE, []) :=
  ⟨C10_partial_output_ignored _ _ (by decide), C10_partial_output_ignored _ _ (by decide)⟩

/-- C11: `openrasp_output_handler_init` rejects every non-zero chunk size: for
every handler name and flags, with `chunk_size ≠ 0` it returns the null pointer
and makes no call of `php_output_handler_create_internal`; it makes such a call
only for `chunk_size = 0`, and then it is one call, for `openrasp_output_handler`
with the given name and flags, whose result it returns. -/
theorem C11_init_rejects_chunk_size {php_output_handler : Type}
    (php_output_handler_create_internal :
      CString → Nat → php_output_handler_context_func_t → Nat → Int → Option php_output_handler)
    (handler_name : CString) (handler_name_len : Nat) (chunk_size : Nat) (flags : Int) :
    (chunk_size ≠ 0 →
      openrasp_output_handler_init php_output_handler_create_internal handler_name
        handler_name_len chunk_size flags = (none, [])) ∧
    ((openrasp_output_handler_init php_output_handler_create_internal handler_name
        handler_name_len chunk_size flags).2 ≠ [] → chunk_size = 0) ∧
    (chunk_size = 0 →
      openrasp_output_handler_init php_output_handler_create_internal handler_name
        handler_name_len chunk_size flags =
        (php_output_handler_create_internal handler_name handler_name_len
            openrasp_output_handler 0 flags,
          [⟨handler_name, handler_name_len, openrasp_output_handler, 0, flags⟩])) := by
  refine ⟨fun h => ?_, fun h => ?_, fun h => ?_⟩
  · simp [openrasp_output_handler_init, h]
  · by_contra hc
    exact h (by simp [openrasp_output_handler_init, hc])
  · subst h
    simp [openrasp_output_handler_init]

theorem C11_init_rejects_chunk_size_witness :
    openrasp_output_handler_init example_create_internal "openrasp_ob_handler".toList 19 4096
        112 = (none, []) ∧
      (openrasp_output_handler_init example_create_internal "openrasp_ob_handler".toList 19 0
        112).1 = some ("openrasp_ob_handler".toList, 0) :=
  ⟨(C11_init_rejects_chunk_size example_create_internal "openrasp_ob_handler".toList 19 4096
      112).1 (by decide),
    congrArg Prod.fst ((C11_init_rejects_chunk_size example_create_internal
      "openrasp_ob_handler".toList 19 0 112).2.2 rfl)⟩

/-- C12: GET entries whose value is no string are ignored: for every GET table,
body and configuration, the scan of the table without those entries has the
result (status and report, the excessive count included) of the scan of the
whole table. -/
theorem C12_non_string_entries_ignored (r : request) (param : CString) :
    _detect_param_occur_in_html_output { r with GET := r.GET.map string_entries } param =
      _detect_param_occur_in_html_output r param := by
  cases hget : r.GET with
  | none => simp [_detect_param_occur_in_html_output, hget]
  | some ht =>
    simp only [_detect_param_occur_in_html_output, hget, Option.map_some']
    exact foreach_val_string_entries _ _ _ _ _ _

/-- C13: in every invocation of the handler the risk handler is called at most
once, and exactly once if and only if the handler returns `SUCCESS`;
`set_location_header` is called as many times as the risk handler, so it is
called if and only if the risk handler was. -/
theorem C13_one_report_per_invocation (r : request) (output_context : php_output_context) :
    (openrasp_output_handler r output_context).2.countP is_risk_handle ≤ 1 ∧
    ((openrasp_output_handler r output_context).2.countP is_risk_handle = 1 ↔
      (openrasp_output_handler r output_context).1 = SUCCESS) ∧
    (openrasp_output_handler r output_context).2.countP is_set_location_header =
      (openrasp_output_handler r output_context).2.countP is_risk_handle ∧
    (effect.set_location_header ∈ (openrasp_output_handler r output_context).2 ↔
      ∃ e ∈ (openrasp_output_handler r output_context).2, is_risk_handle e = true) := by
  rcases handler_cases r output_context with h | ⟨report, hrep, _, h⟩
  · rw [h]
    simp [FAILURE, SUCCESS]
  · rw [h]
    cases report with
    | set_location_header => simp [is_risk_handle] at hrep
    | openrasp_buildin_php_risk_handle a t c ps m =>
      simp [List.countP_cons, is_risk_handle, is_set_location_header]

/-- C14: running the detector twice on the same headers, GET table and body
with the same configuration yields the identical verdict. The handler is run over
the storage of its variables, the second run starting from the storage the first
run left behind (its `count`, `status` and `is_html` as they stood at the end):
the second run returns the status and makes the calls of the first. Whatever the
automatic variables hold at entry, the result is the same, the count of the scan
starts from zero, and the `static` pointer `suffix` is left as it was. -/
theorem C14_rerun_same_verdict (r : request) (output_context : php_output_context)
    (σ : storage) (hstatic : σ.suffix = suffix) :
    (run_openrasp_output_handler r output_context
        (run_openrasp_output_handler r output_context σ).2).1 =
      (run_openrasp_output_handler r output_context σ).1 ∧
    (∀ σ' : storage, σ'.suffix = suffix →
      (run_openrasp_output_handler r output_context σ').1 =
        (run_openrasp_output_handler r output_context σ).1) ∧
    (∀ param ht, r.GET = some ht →
      (run_detect_param_occur_in_html_output r param σ).1 =
        foreach_val r.regex_match r.config r.action param ht 0) ∧
    (run_openrasp_output_handler r output_context σ).2.suffix = σ.suffix ∧
    (run_openrasp_output_handler r output_context σ).1 =
      openrasp_output_handler r output_context := by
  obtain ⟨h1, h2⟩ := run_handler_eq r output_context σ hstatic
  refine ⟨?_, ?_, ?_, by rw [h2, hstatic], h1⟩
  · rw [(run_handler_eq r output_context _ h2).1, h1]
  · intro σ' hs'
    rw [(run_handler_eq r output_context σ' hs').1, h1]
  · intro param ht hget
    rw [(run_detect_eq r param σ).1]
    exact detect_eq_foreach_val r param ht hget

theorem C14_rerun_same_verdict_witness :
    (run_openrasp_output_handler
        (example_request 3 2 ["Content-type: text/html".toList]
          [("a".toList, "<em>".toList), ("q".toList, "<script>".toList)])
        (complete_output "<p><script></p>".toList) ⟨suffix, 7, false, 0, 41⟩).2.count = 2 ∧
      (run_openrasp_output_handler
        (example_request 3 2 ["Content-type: text/html".toList]
          [("a".toList, "<em>".toList), ("q".toList, "<script>".toList)])
        (complete_output "<p><script></p>".toList)
        (run_openrasp_output_handler
          (example_request 3 2 ["Content-type: text/html".toList]
            [("a".toList, "<em>".toList), ("q".toList, "<script>".toList)])
          (complete_output "<p><script></p>".toList) ⟨suffix, 7, false, 0, 41⟩).2).1 =
        (SUCCESS, [reflected_report 0 "<script>".toList, effect.set_location_header]) := by
  refine ⟨by decide, ?_⟩
  rw [(C14_rerun_same_verdict
    (example_request 3 2 ["Content-type: text/html".toList]
      [("a".toList, "<em>".toList), ("q".toList, "<script>".toList)])
    (complete_output "<p><script></p>".toList) ⟨suffix, 7, false, 0, 41⟩ rfl).1]
  rfl

/-- C15, as stated, fails: the 9-byte value `<a`, NUL, `bcdefg` passes the
filter (its length 9 is more than 3 and the regex reads `<a`), and the test finds
it in the body `<p><a href=x>y</a></p>`, which holds `<a` but not the complete
byte sequence of the value; the scan reports the parameter as reflected. -/
theorem C15_counterexample :
    (zend_string_init "<a\x00bcdefg".toList).len = 9 ∧
    _gpc_parameter_filter regex_contains_lt ⟨3, 2, "<".toList⟩
        (zval.IS_STRING (zend_string_init "<a\x00bcdefg".toList)) = true ∧
      (strstr "<p><a href=x>y</a></p>".toList
        (Z_STRVAL_P (zval.IS_STRING (zend_string_init "<a\x00bcdefg".toList)))).isSome = true ∧
      ¬ "<a\x00bcdefg".toList <:+: "<p><a href=x>y</a></p>".toList ∧
      _detect_param_occur_in_html_output
        ⟨regex_contains_lt, ⟨3, 2, "<".toList⟩, 0, [],
          some [("q".toList, zval.IS_STRING (zend_string_init "<a\x00bcdefg".toList))]⟩
        "<p><a href=x>y</a></p>".toList = (SUCCESS, [reflected_report 0 "<a".toList]) := by
  refine ⟨by decide, by decide, by decide, by decide, ?_⟩
  rfl

/-- C15, amended: the reflection test of the scan loop is an exact substring
search over C strings: for every parameter value and every body, the test
succeeds if and only if the bytes of the value before its first NUL byte (its
complete byte sequence when it holds no NUL) occur contiguously in the body; so a
filter-passing parameter under the cap is reported when they occur so and is
passed over when they do not. There is no case folding and no decoding: a value
that differs from the body text in letter case, or is its URL- or entity-encoded
form, is not found. -/
theorem C15_substring_test_up_to_nul (param : CString) (bytes : List Char) :
    ((strstr param (Z_STRVAL_P (zval.IS_STRING (zend_string_init bytes)))).isSome = true ↔
      ∃ before after,
        before ++ bytes.takeWhile (fun c => c ≠ Char.ofNat 0) ++ after = param) ∧
    (Char.ofNat 0 ∉ bytes →
      ((strstr param (Z_STRVAL_P (zval.IS_STRING (zend_string_init bytes)))).isSome = true ↔
        ∃ before after, before ++ bytes ++ after = param)) ∧
    (∀ str : zend_string,
      ((strstr param (Z_STRVAL_P (zval.IS_STRING str))).isSome = true ↔
        ∃ before after, before ++ str.val ++ after = param)) ∧
    (∀ (rm : CString → CString → Bool) (cfg : xss_config) (act : OpenRASPActionType)
      (k : CString) (v : zval) (rest : HashTable) (count : Int),
      _gpc_parameter_filter rm cfg v = true →
      count + 1 ≤ cfg.max_detection_num →
      ((∃ before after, before ++ Z_STRVAL_P v ++ after = param) →
        foreach_val rm cfg act param ((k, v) :: rest) count =
          (SUCCESS, [reflected_report act (Z_STRVAL_P v)])) ∧
      ((¬ ∃ before after, before ++ Z_STRVAL_P v ++ after = param) →
        foreach_val rm cfg act param ((k, v) :: rest) count =
          foreach_val rm cfg act param rest (count + 1))) ∧
    strstr "<p><b>x</b></p>".toList "<B>x</B>".toList = none ∧
    strstr "<p><b>x</b></p>".toList "%3Cb%3Ex%3C/b%3E".toList = none ∧
    strstr "<p>&lt;b&gt;x&lt;/b&gt;</p>".toList "<b>x</b>".toList = none ∧
    strstr "<p><b>x</b></p>".toList "<b>x</b>".toList = some "<b>x</b></p>".toList := by
  have key : ∀ value : CString, (strstr param value).isSome = true ↔
      ∃ before after, before ++ value ++ after = param := fun value =>
    strstr_isSome_iff param value
  refine ⟨key _, fun hnul => ?_, fun str => key str.val, ?_,
    by decide, by decide, by decide, by decide⟩
  · have hall : bytes.takeWhile (fun c => c ≠ Char.ofNat 0) = bytes := by
      rw [List.takeWhile_eq_self_iff]
      intro c hc
      have : c ≠ Char.ofNat 0 := fun h => hnul (h ▸ hc)
      simpa using this
    have h1 : (strstr param
        (Z_STRVAL_P (zval.IS_STRING (zend_string_init bytes)))).isSome = true ↔
        ∃ before after,
          before ++ bytes.takeWhile (fun c => c ≠ Char.ofNat 0) ++ after = param := key _
    rw [hall] at h1
    exact h1
  · intro rm cfg act k v rest count hq hle
    constructor
    · intro h
      exact foreach_val_cons_reflect rm cfg act param k v rest count hq (by omega)
        ((key _).mpr h)
    · intro h
      refine foreach_val_cons_next rm cfg act param k v rest count hq (by omega) ?_
      cases hs : strstr param (Z_STRVAL_P v) with
      | none => rfl
      | some w => exact absurd ((key _).mp (by rw [hs]; rfl)) h

theorem C15_substring_test_up_to_nul_witness :
    ((strstr "<p><b>x</b></p>".toList
        (Z_STRVAL_P (zval.IS_STRING (zend_string_init "<b>x</b>".toList)))).isSome = true ↔
      ∃ before after, before ++ "<b>x</b>".toList ++ after = "<p><b>x</b></p>".toList) ∧
    foreach_val regex_contains_lt ⟨3, 2, "<".toList⟩ 0 "<p><b>x</b></p>".toList
        [("q".toList, ZVAL_STRING "<B>x</B>".toList)] 0 = (FAILURE, []) ∧
      foreach_val regex_contains_lt ⟨3, 2, "<".toList⟩ 0 "<p><b>x</b></p>".toList
        [("q".toList, ZVAL_STRING "<b>x</b>".toList)] 0 =
        (SUCCESS, [reflected_report 0 "<b>x</b>".toList]) :=
  ⟨(C15_substring_test_up_to_nul "<p><b>x</b></p>".toList "<b>x</b>".toList).2.1 (by decide),
    ((C15_substring_test_up_to_nul "<p><b>x</b></p>".toList []).2.2.2.1
      regex_contains_lt ⟨3, 2, "<".toList⟩ 0 "q".toList (ZVAL_STRING "<B>x</B>".toList) [] 0
      (by decide) (by decide)).2 (fun h =>
        absurd ((strstr_isSome_iff "<p><b>x</b></p>".toList
          (Z_STRVAL_P (ZVAL_STRING "<B>x</B>".toList))).mpr h) (by decide)),
    ((C15_substring_test_up_to_nul "<p><b>x</b></p>".toList []).2.2.2.1
      regex_contains_lt ⟨3, 2, "<".toList⟩ 0 "q".toList (ZVAL_STRING "<b>x</b>".toList) [] 0
      (by decide) (by decide)).1 ⟨"<p>".toList, "</p>".toList, rfl⟩⟩

/-- C16: for a complete output event of a response classified as HTML, with
`max_detection_num ≥ 0`, the handler ends without finding (`FAILURE`, no call) if
and only if at most `max_detection_num` GET parameters pass the filter and the
value of no filter-passing parameter occurs in the body. The GET table is taken
as empty when the request has none. -/
theorem C16_no_finding_iff (r : request) (output_context : php_output_context)
    (hhtml : _is_content_type_html r.headers = true)
    (hstart : output_context.op &&& PHP_OUTPUT_HANDLER_START ≠ 0)
    (hfinal : output_context.op &&& PHP_OUTPUT_HANDLER_FINAL ≠ 0)
    (hmax : 0 ≤ r.config.max_detection_num) :
    openrasp_output_handler r output_context = (FAILURE, []) ↔
      ((filtered r.regex_match r.config (r.GET.getD [])).length : Int) ≤
          r.config.max_detection_num ∧
        ∀ x ∈ filtered r.regex_match r.config (r.GET.getD []),
          ¬ Z_STRVAL_P x.2 <:+: output_context.in_data := by
  have hh : openrasp_output_handler r output_context = (FAILURE, []) ↔
      _detect_param_occur_in_html_output r output_context.in_data = (FAILURE, []) := by
    rw [handler_complete_html r output_context hhtml hstart hfinal]
    rcases detect_cases r output_context.in_data with h | ⟨val, h⟩ | ⟨n, h⟩ <;>
      rw [h] <;> simp [FAILURE, SUCCESS]
  rw [hh]
  cases hget : r.GET with
  | none =>
    simp [_detect_param_occur_in_html_output, hget, filtered, hmax]
  | some ht =>
    rw [detect_eq_foreach_val r _ ht hget, foreach_val_failure_iff]
    simp only [Option.getD_some, zero_add]
    constructor
    · rintro ⟨hall, hnil | hcap⟩
      · refine ⟨by rw [hnil]; simpa using hmax, ?_⟩
        rw [hnil]
        simp
      · exact ⟨hcap, fun x hx => hall x (List.mem_filter.mp hx).1
          (by simpa using (List.mem_filter.mp hx).2)⟩
    · rintro ⟨hcap, hall⟩
      exact ⟨fun q hq hqf => hall q (List.mem_filter.mpr ⟨hq, by simpa using hqf⟩), Or.inr hcap⟩

theorem C16_no_finding_iff_witness :
    openrasp_output_handler
      (example_request 3 2 ["Content-type: text/html".toList]
        [("a".toList, "<em>".toList), ("b".toList, "plain".toList), ("c".toList, "<h1>".toList)])
      (complete_output "<p>hello</p>".toList) = (FAILURE, []) :=
  (C16_no_finding_iff
    (example_request 3 2 ["Content-type: text/html".toList]
      [("a".toList, "<em>".toList), ("b".toList, "plain".toList), ("c".toList, "<h1>".toList)])
    (complete_output "<p>hello</p>".toList) (by decide) (by decide) (by decide) (by decide)).mpr
    ⟨by decide, by decide⟩

/-- C17: the classification never reverts to `true`: for all header lists `h1`
and `h2`, `_is_content_type_html (h1 ++ h2)` is the conjunction of the two
classifications; so a list with a prefix classified not-HTML is classified
not-HTML, and lists with the same headers in another order are classified alike. -/
theorem C17_classification_is_conjunction (h1 h2 : List sapi_header_struct) :
    _is_content_type_html (h1 ++ h2) =
      (_is_content_type_html h1 && _is_content_type_html h2) ∧
    (_is_content_type_html h1 = false → _is_content_type_html (h1 ++ h2) = false) ∧
    (h1.Perm h2 → _is_content_type_html h1 = _is_content_type_html h2) := by
  have hiff : ∀ a b : Bool, (a = false ↔ b = false) → a = b := by
    intro a b h
    cases a <;> cases b <;> simp_all
  have happ : _is_content_type_html (h1 ++ h2) =
      (_is_content_type_html h1 && _is_content_type_html h2) := by
    apply hiff
    rw [Bool.and_eq_false_iff, is_content_type_html_eq_false_iff,
      is_content_type_html_eq_false_iff, is_content_type_html_eq_false_iff]
    constructor
    · rintro ⟨x, hx, hc⟩
      rcases List.mem_append.mp hx with hx | hx
      · exact Or.inl ⟨x, hx, hc⟩
      · exact Or.inr ⟨x, hx, hc⟩
    · rintro (⟨x, hx, hc⟩ | ⟨x, hx, hc⟩)
      · exact ⟨x, List.mem_append.mpr (Or.inl hx), hc⟩
      · exact ⟨x, List.mem_append.mpr (Or.inr hx), hc⟩
  refine ⟨happ, fun h => by rw [happ, h]; rfl, fun hperm => ?_⟩
  apply hiff
  rw [is_content_type_html_eq_false_iff, is_content_type_html_eq_false_iff]
  constructor
  · rintro ⟨x, hx, hc⟩
    exact ⟨x, hperm.mem_iff.mp hx, hc⟩
  · rintro ⟨x, hx, hc⟩
    exact ⟨x, hperm.mem_iff.mpr hx, hc⟩

theorem C17_classification_is_conjunction_witness :
    _is_content_type_html
        ([⟨"Content-type: application/json".toList⟩] ++ [⟨"Content-type: text/html".toList⟩]) =
        false ∧
      _is_content_type_html
          [⟨"X-Powered-By: PHP".toList⟩, ⟨"Content-type: image/png".toList⟩] =
        _is_content_type_html
          [⟨"Content-type: image/png".toList⟩, ⟨"X-Powered-By: PHP".toList⟩] :=
  ⟨(C17_classification_is_conjunction _ _).2.1 (by decide),
    (C17_classification_is_conjunction _ _).2.2 (List.Perm.swap _ _ [])⟩

/-- C18: raising the cap never hides a reflection: for every GET table, body and
caps `m ≤ m'` (and so for `0 ≤ m ≤ m'`), when the scan with cap `m` reports a
parameter as reflected, that parameter is the first one that passes the filter
and occurs in the body, and the scan with cap `m'` makes the same report; and
when the scan with cap `m` ends without finding, so does the scan with cap `m'`. -/
theorem C18_raising_cap_keeps_result (r : request) (param : CString) (ht : HashTable)
    (m m' : Int) (hget : r.GET = some ht) (hmm : m ≤ m') :
    (∀ val, reflected_report r.action val ∈
        (_detect_param_occur_in_html_output (with_max_detection_num r m) param).2 →
      ∃ pre p post, ht = pre ++ p :: post ∧ val = Z_STRVAL_P p.2 ∧
        _gpc_parameter_filter r.regex_match r.config p.2 = true ∧
        Z_STRVAL_P p.2 <:+: param ∧
        (∀ x ∈ pre, _gpc_parameter_filter r.regex_match r.config x.2 = true →
          ¬ Z_STRVAL_P x.2 <:+: param) ∧
        _detect_param_occur_in_html_output (with_max_detection_num r m) param =
          (SUCCESS, [reflected_report r.action (Z_STRVAL_P p.2)]) ∧
        _detect_param_occur_in_html_output (with_max_detection_num r m') param =
          (SUCCESS, [reflected_report r.action (Z_STRVAL_P p.2)])) ∧
    (_detect_param_occur_in_html_output (with_max_detection_num r m) param = (FAILURE, []) →
      _detect_param_occur_in_html_output (with_max_detection_num r m') param = (FAILURE, [])) := by
  have hgetm : ∀ k, (with_max_detection_num r k).GET = some ht := fun _ => hget
  constructor
  · intro val hrep
    obtain ⟨pre, p, post, hl, hp, hocc, hpre, hv, hk, hres⟩ :=
      detect_reflected_inv (with_max_detection_num r m) param ht (hgetm m) val hrep
    have hp0 : _gpc_parameter_filter r.regex_match r.config p.2 = true := hp
    have hpre0 : ∀ x ∈ pre, _gpc_parameter_filter r.regex_match r.config x.2 = true →
        ¬ Z_STRVAL_P x.2 <:+: param := hpre
    have hk0 : ((filtered r.regex_match r.config pre).length : Int) + 1 ≤ m := hk
    refine ⟨pre, p, post, hl, hv, hp0, hocc, hpre0, by rw [← hv]; exact hres, ?_⟩
    rw [detect_eq_foreach_val (with_max_detection_num r m') param ht (hgetm m'), hl]
    obtain ⟨q, _, _, _, hres', hfirst⟩ :=
      foreach_val_first_reflected r.regex_match (with_max_detection_num r m').config r.action
        param pre post p 0 hp ((strstr_isSome_iff _ _).mpr hocc)
        (by
          have e : filtered r.regex_match (with_max_detection_num r m').config pre =
              filtered r.regex_match r.config pre := filtered_with_max _ _ _ _
          rw [e]
          show 0 + ((filtered r.regex_match r.config pre).length : Int) + 1 ≤ m'
          omega)
    have hq : q = p := hfirst (fun x hx hxf => (strstr_eq_none_iff _ _).mpr (hpre x hx hxf))
    rw [hq] at hres'
    exact hres'
  · intro h
    rw [detect_eq_foreach_val (with_max_detection_num r m) param ht (hgetm m)] at h
    rw [detect_eq_foreach_val (with_max_detection_num r m') param ht (hgetm m')]
    obtain ⟨hall, hcap⟩ := (foreach_val_failure_iff _ _ _ _ _ _).mp h
    refine (foreach_val_failure_iff _ _ _ _ _ _).mpr ⟨hall, ?_⟩
    rcases hcap with hnil | hcap
    · exact Or.inl hnil
    · right
      have hcap0 : 0 + ((filtered r.regex_match r.config ht).length : Int) ≤ m := hcap
      show 0 + ((filtered r.regex_match r.config ht).length : Int) ≤ m'
      omega

theorem C18_raising_cap_keeps_result_witness :
    _detect_param_occur_in_html_output
        (with_max_detection_num
          (example_request 3 0 [] [("a".toList, "<em>".toList), ("q".toList, "<script>".toList)])
          5)
        "<p>hello</p>".toList = (FAILURE, []) ∧
      _detect_param_occur_in_html_output
        (with_max_detection_num
          (example_request 3 0 [] [("a".toList, "<em>".toList), ("q".toList, "<script>".toList)])
          5)
        "<p><script></p>".toList = (SUCCESS, [reflected_report 0 "<script>".toList]) := by
  constructor
  · exact (C18_raising_cap_keeps_result
      (example_request 3 0 [] [("a".toList, "<em>".toList), ("q".toList, "<script>".toList)])
      "<p>hello</p>".toList
      [("a".toList, ZVAL_STRING "<em>".toList), ("q".toList, ZVAL_STRING "<script>".toList)]
      2 5 rfl (by decide)).2 rfl
  · obtain ⟨_, p, _, _, hv, _, _, _, _, h'⟩ := (C18_raising_cap_keeps_result
      (example_request 3 0 [] [("a".toList, "<em>".toList), ("q".toList, "<script>".toList)])
      "<p><script></p>".toList
      [("a".toList, ZVAL_STRING "<em>".toList), ("q".toList, ZVAL_STRING "<script>".toList)]
      2 5 rfl (by decide)).1 "<script>".toList (List.mem_singleton.mpr rfl)
    rw [h', ← hv]
    rfl

/-- C19: findings are monotone in the body: for every GET table and
configuration, when the body `b` occurs contiguously in the body `b'` and the
scan of `b` makes a report (reflected parameter or excessive count), the scan of
`b'` makes a report too; equivalently, when the scan of `b'` ends without
finding, so does the scan of `b`. -/
theorem C19_findings_monotone_in_body (r : request) (b b' : CString) (hsub : b <:+: b') :
    (_detect_param_occur_in_html_output r b' = (FAILURE, []) →
      _detect_param_occur_in_html_output r b = (FAILURE, [])) ∧
    (∀ report, _detect_param_occur_in_html_output r b = (SUCCESS, [report]) →
      ∃ report', _detect_param_occur_in_html_output r b' = (SUCCESS, [report'])) := by
  have hfail : _detect_param_occur_in_html_output r b' = (FAILURE, []) →
      _detect_param_occur_in_html_output r b = (FAILURE, []) := by
    cases hget : r.GET with
    | none =>
      intro _
      simp [_detect_param_occur_in_html_output, hget]
    | some ht =>
      rw [detect_eq_foreach_val r b' ht hget, detect_eq_foreach_val r b ht hget,
        foreach_val_failure_iff, foreach_val_failure_iff]
      rintro ⟨hall, hcap⟩
      exact ⟨fun q hq hqf hin => hall q hq hqf (hin.trans hsub), hcap⟩
  refine ⟨hfail, ?_⟩
  intro report hrep
  rcases detect_cases r b' with h | ⟨val, h⟩ | ⟨n, h⟩
  · rw [hfail h] at hrep
    exact absurd (congrArg Prod.fst hrep).symm success_ne_failure
  · exact ⟨_, h⟩
  · exact ⟨_, h⟩

theorem C19_findings_monotone_in_body_witness :
    ∃ report', _detect_param_occur_in_html_output
      (example_request 3 2 [] [("q".toList, "<script>".toList)])
      "<html><p><script></p></html>".toList = (SUCCESS, [report']) :=
  (C19_findings_monotone_in_body (example_request 3 2 [] [("q".toList, "<script>".toList)])
    "<p><script></p>".toList "<html><p><script></p></html>".toList
    ⟨"<html>".toList, "</html>".toList, rfl⟩).2 (reflected_report 0 "<script>".toList) rfl

end OpenRASP
